import Mathlib

/-!
Verification development for the compound-interest / retirement projection
engine (`src/utils/calculations.ts`).  The engine is shallowly embedded over
`ℚ`: JavaScript numbers are modelled as exact rationals, the ambient
`Math.random()` stream is modelled as an explicit function `ℕ → ℚ` together
with a next-draw index threaded through every computation, and every loop of
the source is a fuel-based structural recursion with the source's loop bound
as fuel.  The embedding follows the second (current) definition block of
`calculations.ts`; the superseded first half of that file is not modelled.
-/

namespace CompoundCalc

/-- Tax rates (percent), `taxRate` in `CalculatorInputs`. -/
structure TaxRate where
  income : ℚ
  dividends : ℚ
  capitalGains : ℚ
deriving DecidableEq

/-- Fee structure (percent per year), `fees` in `CalculatorInputs`. -/
structure Fees where
  expenseRatio : ℚ
  advisoryFee : ℚ
deriving DecidableEq

/-- Mixed-account split (percent), `accountAllocation` in `CalculatorInputs`. -/
structure AccountAllocation where
  taxDeferred : ℚ
  taxFree : ℚ
deriving DecidableEq

/-- The `accountType` union `"taxable" | "tax-deferred" | "tax-free" | "mixed"`. -/
inductive AccountType where
  | taxable
  | taxDeferred
  | taxFree
  | mixed
deriving DecidableEq

/-- The `retirementPhase` sub-record of `CalculatorInputs`.  In the TypeScript
interface every field except `withdrawalStartYear` is required, so
`retirementReturn` is modelled as a plain rational (the source's
`retirementReturn !== undefined` test is true for every well-typed input). -/
structure RetirementPhase where
  enabled : Bool
  annualWithdrawal : ℚ
  withdrawalAdjustForInflation : Bool
  retirementYears : ℕ
  retirementReturn : ℚ
  withdrawalStartYear : Option ℕ
deriving DecidableEq

/-- The engine's input record (`CalculatorInputs`).  `assetAllocation` is not
consumed by any computation of the engine and is omitted. -/
structure CalculatorInputs where
  initialInvestment : ℚ
  monthlyContribution : ℚ
  annualContributionIncrease : ℚ
  investmentHorizon : ℕ
  expectedAnnualReturn : ℚ
  returnVolatility : ℚ
  inflationRate : ℚ
  taxRate : TaxRate
  fees : Fees
  accountType : AccountType
  accountAllocation : AccountAllocation
  retirementPhase : RetirementPhase
deriving DecidableEq

/-- The three parallel account balances threaded through every month. -/
structure Balances where
  taxDeferred : ℚ
  taxFree : ℚ
  taxable : ℚ
deriving DecidableEq

/-- Total portfolio value, `balanceTaxDeferred + balanceTaxFree + balanceTaxable`. -/
def Balances.total (b : Balances) : ℚ := b.taxDeferred + b.taxFree + b.taxable

/-- Initialisation of the three balances from a single amount
(`calculations.ts` lines 348-358, identically lines 1024-1034).  Note that for
`accountType = "taxable"` the source puts the amount into BOTH the
tax-deferred and the taxable balance. -/
def initBalances (t : AccountType) (alloc : AccountAllocation) (amount : ℚ) : Balances where
  taxDeferred :=
    if t = .taxFree then 0
    else amount * (if t = .mixed then alloc.taxDeferred / 100 else 1)
  taxFree :=
    if t = .taxDeferred ∨ t = .taxable then 0
    else amount * (if t = .mixed then alloc.taxFree / 100 else 1)
  taxable := if t = .taxable then amount else 0

/-- Contribution allocation by account type (lines 420-431; in mixed mode the
taxable balance receives nothing). -/
def contributionSplit (t : AccountType) (alloc : AccountAllocation) (c : ℚ) : Balances :=
  match t with
  | .taxDeferred => ⟨c, 0, 0⟩
  | .taxFree => ⟨0, c, 0⟩
  | .taxable => ⟨0, 0, c⟩
  | .mixed => ⟨c * (alloc.taxDeferred / 100), c * (alloc.taxFree / 100), 0⟩

/-- Result of one monthly withdrawal pass over the three balances. -/
structure WithdrawalOutcome where
  bal : Balances
  drawnTaxable : ℚ
  drawnTaxFree : ℚ
  drawnTaxDeferred : ℚ
  capitalGainsTax : ℚ
  incomeTax : ℚ
  shortfall : ℚ
deriving DecidableEq

/-- The tax-efficient withdrawal pass (lines 441-487 of the accumulation loop,
identically lines 1109-1150 of the retirement loop): drain taxable, then
tax-free, then tax-deferred, clamping each draw by `min`; the taxable draw is
taxed as if 50% of it were realised capital gain, the tax-deferred draw is
taxed as ordinary income. -/
def withdrawalStep (tax : TaxRate) (need : ℚ) (b : Balances) : WithdrawalOutcome :=
  -- 1. first withdraw from taxable accounts
  let s1 : ℚ × ℚ :=
    if 0 < b.taxable then
      let w := min need b.taxable
      (w, w * (1/2) * (tax.capitalGains / 100))
    else (0, 0)
  let rem1 := need - s1.1
  -- 2. then withdraw from tax-free accounts (no tax)
  let s2 : ℚ := if 0 < rem1 ∧ 0 < b.taxFree then min rem1 b.taxFree else 0
  let rem2 := rem1 - s2
  -- 3. finally withdraw from tax-deferred accounts (income tax)
  let s3 : ℚ × ℚ :=
    if 0 < rem2 ∧ 0 < b.taxDeferred then
      let w := min rem2 b.taxDeferred
      (w, w * (tax.income / 100))
    else (0, 0)
  let rem3 := rem2 - s3.1
  { bal := { taxDeferred := b.taxDeferred - s3.1
             taxFree := b.taxFree - s2
             taxable := b.taxable - s1.1 }
    drawnTaxable := s1.1
    drawnTaxFree := s2
    drawnTaxDeferred := s3.1
    capitalGainsTax := s1.2
    incomeTax := s3.2
    shortfall := rem3 }

/-- Outcome of a month in which the withdrawal block is skipped
(`monthlyWithdrawal > 0` fails): balances untouched, nothing recorded. -/
def WithdrawalOutcome.skip (b : Balances) : WithdrawalOutcome :=
  ⟨b, 0, 0, 0, 0, 0, 0⟩

/-- Sum actually drained from the three balances this month. -/
def WithdrawalOutcome.drawnTotal (o : WithdrawalOutcome) : ℚ :=
  o.drawnTaxable + o.drawnTaxFree + o.drawnTaxDeferred

/-- Net amount added to `yearWithdrawals`: each draw is added, and an unmet
remainder is subtracted again (lines 484-487 / 1146-1150). -/
def WithdrawalOutcome.recordedDelta (o : WithdrawalOutcome) : ℚ :=
  o.drawnTotal - (if 0 < o.shortfall then o.shortfall else 0)

/-- Withdrawal taxes recorded this month. -/
def WithdrawalOutcome.taxesDelta (o : WithdrawalOutcome) : ℚ :=
  o.capitalGainsTax + o.incomeTax

/-- The IEEE-754 double value produced by the source's `Math.sqrt(12)`,
used to convert annual-scale volatility to monthly scale. -/
def sqrtTwelve : ℚ := 3.4641016151377544

/-- Percentile reduction shared by both Monte-Carlo analyzers (lines 984-992
and 1420-1428): sort the trial balances ascending and read the 10th / 50th /
90th percentile at index `floor(length × p)`. -/
structure SequenceRiskAnalysis where
  worstCaseScenario : ℚ
  bestCaseScenario : ℚ
  medianScenario : ℚ
  successRate : ℚ
deriving DecidableEq

/-- Sort trial final balances ascending and report the percentile fields. -/
def percentileSummary (bs : List ℚ) (successRate : ℚ) : SequenceRiskAnalysis :=
  let sorted := bs.mergeSort (fun a b => decide (a ≤ b))
  { worstCaseScenario := sorted.getD (sorted.length / 10) 0
    bestCaseScenario := sorted.getD (sorted.length * 9 / 10) 0
    medianScenario := sorted.getD (sorted.length / 2) 0
    successRate := successRate }

/-! ### Retirement phase (`calculateRetirementPhase`, lines 997-1290) -/

/-- One month of the retirement loop (lines 1104-1206): optional withdrawal
pass, then earnings at the month's return (zero throughout year 0), fee drag,
dividend tax on the taxable account, and finally the earnings are added. -/
structure RetMonthResult where
  w : WithdrawalOutcome
  earnTD : ℚ
  earnTF : ℚ
  earnTx : ℚ
  fee : ℚ
  divTax : ℚ
  bal : Balances

/-- Body of one month of the retirement loop.  `effRet` is the retirement
expected return (percent), `mw` the monthly withdrawal need, `u` the uniform
draw backing `Math.random()` for this month's return modifier (the source
draws it only when `year > 0` and `effRet ≠ 0`). -/
def retMonth (inp : CalculatorInputs) (effRet : ℚ) (year : ℕ) (mw u : ℚ)
    (b : Balances) : RetMonthResult :=
  let w := if 0 < mw then withdrawalStep inp.taxRate mw b else .skip b
  let monthlyReturnModifier : ℚ :=
    if 0 < year ∧ effRet ≠ 0 then
      ((u - 1/2) * (inp.returnVolatility * 0.8)) / sqrtTwelve / 100
    else 0
  let monthlyReturn : ℚ := if year = 0 then 0 else effRet / 12 / 100 + monthlyReturnModifier
  let b1 := w.bal
  let earnTD := b1.taxDeferred * monthlyReturn
  let earnTF := b1.taxFree * monthlyReturn
  let earnTx := b1.taxable * monthlyReturn
  let mfr := inp.fees.expenseRatio / 12 / 100 + inp.fees.advisoryFee / 12 / 100
  let feeTD := b1.taxDeferred * mfr
  let feeTF := b1.taxFree * mfr
  let feeTx := b1.taxable * mfr
  let b2 : Balances := ⟨b1.taxDeferred - feeTD, b1.taxFree - feeTF, b1.taxable - feeTx⟩
  let divTax := if 0 < b2.taxable then earnTx * 0.4 * (inp.taxRate.dividends / 100) else 0
  let b3 : Balances := ⟨b2.taxDeferred, b2.taxFree, b2.taxable - divTax⟩
  let b4 : Balances := ⟨b3.taxDeferred + earnTD, b3.taxFree + earnTF, b3.taxable + earnTx⟩
  ⟨w, earnTD, earnTF, earnTx, feeTD + feeTF + feeTx, divTax, b4⟩

/-- Yearly accumulators of the retirement loop, plus the threaded balances,
money-ran-out flag and random-stream index. -/
structure RetYearState where
  bal : Balances
  runOut : Bool
  idx : ℕ
  yW : ℚ
  yWT : ℚ
  yETD : ℚ
  yETF : ℚ
  yETx : ℚ
  yF : ℚ
  yT : ℚ

/-- State update for one month of a retirement year: run `retMonth`,
accumulate the yearly totals, raise the money-ran-out flag on a shortfall and
advance the stream index when the source actually calls `Math.random()`. -/
def retYearStep (inp : CalculatorInputs) (effRet : ℚ) (year : ℕ) (mw u : ℚ)
    (s : RetYearState) : RetYearState :=
  let m := retMonth inp effRet year mw u s.bal
  { bal := m.bal
    runOut := s.runOut || decide (0 < m.w.shortfall)
    idx := s.idx + (if 0 < year ∧ effRet ≠ 0 then 1 else 0)
    yW := s.yW + m.w.recordedDelta
    yWT := s.yWT + m.w.taxesDelta
    yETD := s.yETD + m.earnTD
    yETF := s.yETF + m.earnTF
    yETx := s.yETx + m.earnTx
    yF := s.yF + m.fee
    yT := s.yT + m.divTax }

/-- Fold of `retMonth` over the months of one retirement year (the inner
`for (month = 1; month <= 12; ...)` loop). -/
def retMonthsGo (inp : CalculatorInputs) (effRet : ℚ) (year : ℕ) (mw : ℚ)
    (g : ℕ → ℚ) : ℕ → RetYearState → RetYearState
  | 0, s => s
  | n + 1, s =>
    retMonthsGo inp effRet year mw g n (retYearStep inp effRet year mw (g s.idx) s)

/-- One row of the retirement year-by-year report. -/
structure RetYearRow where
  year : ℕ
  startingBalance : ℚ
  withdrawals : ℚ
  cumulativeWithdrawals : ℚ
  earnings : ℚ
  fees : ℚ
  taxes : ℚ
  endingBalance : ℚ
  inflationAdjustedValue : ℚ
  withdrawalTaxes : ℚ
deriving DecidableEq

/-- Function-level state of the retirement year loop. -/
structure RetPhaseState where
  bal : Balances
  runOut : Bool
  idx : ℕ
  totalWithdrawals : ℚ
  totalTaxesPaid : ℚ
  totalGrowth : ℚ
  cumulativeWithdrawals : ℚ
  details : List RetYearRow
  projectedLongevity : ℤ
  yearsOfIncome : ℤ

/-- The retirement year loop (lines 1066-1246): up to `MAX_SIMULATION_YEARS =
100` years (the fuel), stopping when the year-start balance is non-positive or
when the money ran out during the year. -/
def retYearsGo (inp : CalculatorInputs) (effRet : ℚ) (retYrs : ℕ) (b0 : ℚ)
    (g : ℕ → ℚ) : ℕ → ℕ → RetPhaseState → RetPhaseState
  | 0, _, s => s
  | fuel + 1, year, s =>
    let yearStart := s.bal.total
    if yearStart ≤ 0 then
      { s with runOut := true
               projectedLongevity := (year : ℤ)
               yearsOfIncome := if year < retYrs then (year : ℤ) else s.yearsOfIncome }
    else
      let annualW :=
        if inp.retirementPhase.withdrawalAdjustForInflation then
          inp.retirementPhase.annualWithdrawal * (1 + inp.inflationRate / 100) ^ year
        else inp.retirementPhase.annualWithdrawal
      let ys := retMonthsGo inp effRet year (annualW / 12) g 12
        ⟨s.bal, s.runOut, s.idx, 0, 0, 0, 0, 0, 0, 0⟩
      let yearEarnings := ys.yETD + ys.yETF + ys.yETx
      let row : RetYearRow :=
        { year := year
          startingBalance := if year = 0 then b0 else yearStart
          withdrawals := ys.yW
          cumulativeWithdrawals := s.cumulativeWithdrawals + ys.yW
          earnings := yearEarnings
          fees := ys.yF
          taxes := ys.yT + ys.yWT
          endingBalance := ys.bal.total
          inflationAdjustedValue := ys.bal.total / (1 + inp.inflationRate / 100) ^ year
          withdrawalTaxes := ys.yWT }
      let s' : RetPhaseState :=
        { bal := ys.bal
          runOut := ys.runOut
          idx := ys.idx
          totalWithdrawals := s.totalWithdrawals + ys.yW
          totalTaxesPaid := s.totalTaxesPaid + ys.yWT + ys.yT
          totalGrowth := s.totalGrowth + yearEarnings
          cumulativeWithdrawals := s.cumulativeWithdrawals + ys.yW
          details := s.details ++ (if year < retYrs then [row] else [])
          projectedLongevity := (year : ℤ) + 1
          yearsOfIncome := s.yearsOfIncome }
      if s'.runOut then s' else retYearsGo inp effRet retYrs b0 g fuel (year + 1) s'

/-! ### Retirement success rate (`calculateRetirementSuccessRate`, lines 1295-1429) -/

/-- Deterministic (zero-volatility) year-by-year longevity simulation
(lines 1327-1353).  Returns the final balance and `yearsLasted`. -/
def srLoop (inp : CalculatorInputs) (effRet : ℚ) :
    ℕ → ℕ → ℚ → ℤ → ℚ × ℤ
  | 0, _, balance, yearsLasted => (balance, yearsLasted)
  | fuel + 1, year, balance, yearsLasted =>
    let wa :=
      if inp.retirementPhase.withdrawalAdjustForInflation then
        inp.retirementPhase.annualWithdrawal * (1 + inp.inflationRate / 100) ^ year
      else inp.retirementPhase.annualWithdrawal
    let b1 := balance - wa
    if b1 ≤ 0 then (0, (year : ℤ))
    else
      let b2 := b1 * (1 + effRet / 100)
      let annualFees := b2 * (inp.fees.expenseRatio + inp.fees.advisoryFee) / 100
      srLoop inp effRet fuel (year + 1) (b2 - annualFees) ((year : ℤ) + 1)
    termination_by fuel _ _ _ => fuel

/-- One stochastic retirement trial (lines 1380-1418): subtract the (possibly
inflation-escalated) withdrawal, stop with a zeroed balance on depletion, else
grow at the sampled return (volatility scaled to 80%) and subtract fees.
Returns (final balance, ran-out flag, next stream index). -/
def retTrialGo (inp : CalculatorInputs) (effRet : ℚ) (g : ℕ → ℚ) :
    ℕ → ℕ → ℚ → ℕ → ℚ × Bool × ℕ
  | 0, _, balance, k => (balance, false, k)
  | fuel + 1, year, balance, k =>
    let wa :=
      if inp.retirementPhase.withdrawalAdjustForInflation then
        inp.retirementPhase.annualWithdrawal * (1 + inp.inflationRate / 100) ^ year
      else inp.retirementPhase.annualWithdrawal
    let b1 := balance - wa
    if b1 ≤ 0 then (0, true, k)
    else
      let annualReturn := effRet / 100 + ((g k - 1/2) * (inp.returnVolatility * 0.8)) / 100
      let b2 := b1 * (1 + annualReturn)
      let annualFees := b2 * (inp.fees.expenseRatio + inp.fees.advisoryFee) / 100
      retTrialGo inp effRet g fuel (year + 1) (b2 - annualFees) (k + 1)
    termination_by fuel _ _ _ => fuel

/-- The 1000-trial Monte-Carlo loop of `calculateRetirementSuccessRate`:
collect final balances, count trials that never ran out of money, and thread
the stream index. -/
def retTrialsGo (inp : CalculatorInputs) (effRet : ℚ) (retYears : ℕ) (b0 : ℚ)
    (g : ℕ → ℚ) : ℕ → ℕ → List ℚ × ℕ × ℕ
  | 0, k => ([], 0, k)
  | n + 1, k =>
    let t := retTrialGo inp effRet g retYears 0 b0 k
    let rest := retTrialsGo inp effRet retYears b0 g n t.2.2
    (t.1 :: rest.1, rest.2.1 + (if t.2.1 then 0 else 1), rest.2.2)

/-- `calculateRetirementSuccessRate(inputs, startingBalance, retirementYears)`.
Returns the analysis together with the next stream index. -/
def calculateRetirementSuccessRate (inp : CalculatorInputs) (b0 : ℚ)
    (retYears : ℕ) (g : ℕ → ℚ) (k : ℕ) : SequenceRiskAnalysis × ℕ :=
  let effRet := inp.retirementPhase.retirementReturn
  if inp.returnVolatility = 0 then
    -- deterministic case
    let res : ℚ × ℤ :=
      if effRet = 0 ∧ 0 < inp.retirementPhase.annualWithdrawal ∧
          inp.retirementPhase.withdrawalAdjustForInflation = false then
        -- zero return and flat withdrawals: simple division
        (b0, ⌊b0 / inp.retirementPhase.annualWithdrawal⌋)
      else srLoop inp effRet 100 0 b0 0
    ({ worstCaseScenario := res.1 * 0.95
       bestCaseScenario := res.1 * 1.05
       medianScenario := res.1
       successRate := if (retYears : ℤ) ≤ res.2 then 1 else 0 }, k)
  else
    let trials := retTrialsGo inp effRet retYears b0 g 1000 k
    (percentileSummary trials.1 ((trials.2.1 : ℚ) / 1000), trials.2.2)

/-- Summary block of `RetirementPhaseResults`. -/
structure RetirementSummary where
  startingBalance : ℚ
  totalWithdrawals : ℚ
  totalGrowth : ℚ
  finalBalance : ℚ
  inflationAdjustedFinalBalance : ℚ
  totalTaxesPaid : ℚ
  yearsOfIncome : ℤ
  projectedLongevity : ℤ
deriving DecidableEq

/-- Probability block of `RetirementPhaseResults`. -/
structure RetirementProbabilityMetrics where
  successRate : ℚ
  medianEndingBalance : ℚ
  worstCaseBalance : ℚ
  bestCaseBalance : ℚ
deriving DecidableEq

/-- `RetirementPhaseResults`. -/
structure RetirementPhaseResults where
  summary : RetirementSummary
  probabilityMetrics : RetirementProbabilityMetrics
  yearByYearDetails : List RetYearRow
deriving DecidableEq

/-- `calculateRetirementPhase(inputs, startingBalance)` (lines 997-1290),
returning the results and the next stream index. -/
def calculateRetirementPhase (inp : CalculatorInputs) (startingBalance : ℚ)
    (g : ℕ → ℚ) (k : ℕ) : RetirementPhaseResults × ℕ :=
  -- `retirementReturn` is a required field of the input type, so the source's
  -- `retirementReturn !== undefined` test always takes the first branch.
  let effRet := inp.retirementPhase.retirementReturn
  let retYrs := if inp.retirementPhase.retirementYears = 0 then 30
                else inp.retirementPhase.retirementYears
  let W := inp.retirementPhase.annualWithdrawal
  let zeroZero := effRet = 0 ∧ inp.returnVolatility = 0
  let estimatedLongevity : ℤ :=
    if zeroZero then (if 0 < W then ⌊startingBalance / W⌋ else 100) else 0
  let b := initBalances inp.accountType inp.accountAllocation startingBalance
  let s := retYearsGo inp effRet retYrs startingBalance g 100 0
    ⟨b, false, k, 0, 0, 0, 0, [], 0, (retYrs : ℤ)⟩
  let projectedLongevity : ℤ := if zeroZero then estimatedLongevity else s.projectedLongevity
  let yearsOfIncome : ℤ :=
    if zeroZero ∧ projectedLongevity < retYrs then projectedLongevity else s.yearsOfIncome
  let finalBalance := s.bal.total
  let risk := calculateRetirementSuccessRate inp startingBalance retYrs g s.idx
  ({ summary :=
      { startingBalance := startingBalance
        totalWithdrawals := s.totalWithdrawals
        totalGrowth := s.totalGrowth
        finalBalance := finalBalance
        inflationAdjustedFinalBalance :=
          finalBalance / (1 + inp.inflationRate / 100) ^ yearsOfIncome
        totalTaxesPaid := s.totalTaxesPaid
        yearsOfIncome := yearsOfIncome
        projectedLongevity := projectedLongevity }
     probabilityMetrics :=
      { successRate := risk.1.successRate
        medianEndingBalance := risk.1.medianScenario
        worstCaseBalance := risk.1.worstCaseScenario
        bestCaseBalance := risk.1.bestCaseScenario }
     yearByYearDetails := s.details }, risk.2)

/-! ### Sequence-of-returns risk (`calculateSequenceRisk`, lines 796-993) -/

/-- Zero-volatility branch (lines 829-840): a single exact monthly-compounded
path over `investmentHorizon * 12` months. -/
def szMonths (inp : CalculatorInputs) : ℕ → ℚ → ℚ
  | 0, b => b
  | n + 1, b =>
    let b1 := b + inp.monthlyContribution
    let b2 := b1 * (1 + inp.expectedAnnualReturn / 100 / 12)
    let monthlyFees := b2 * ((inp.fees.expenseRatio + inp.fees.advisoryFee) / 12 / 100)
    szMonths inp n (b2 - monthlyFees)

/-- Zero-volatility success-rate estimate of `calculateSequenceRisk`
(lines 857-882): annual withdraw-grow-fee loop; returns `yearsLasted`. -/
def szRetYears (inp : CalculatorInputs) : ℕ → ℕ → ℚ → ℕ → ℕ
  | 0, _, _, yearsLasted => yearsLasted
  | fuel + 1, year, balance, _ =>
    let wa :=
      if inp.retirementPhase.withdrawalAdjustForInflation then
        inp.retirementPhase.annualWithdrawal * (1 + inp.inflationRate / 100) ^ year
      else inp.retirementPhase.annualWithdrawal
    let b1 := balance - wa
    if b1 ≤ 0 then year
    else
      let b2 := b1 * (1 + inp.retirementPhase.retirementReturn / 100)
      let annualFees := b2 * ((inp.fees.expenseRatio + inp.fees.advisoryFee) / 100)
      szRetYears inp fuel (year + 1) (b2 - annualFees) (year + 1)
    termination_by fuel _ _ _ => fuel

/-- Safe list element swap used by the Fisher-Yates shuffle. -/
def listSwap (l : List ℚ) (i j : ℕ) : List ℚ :=
  let vi := l.getD i 0
  let vj := l.getD j 0
  (l.set i vj).set j vi

/-- Fisher-Yates loop (lines 923-929): for `i` from the last index down to 1,
swap position `i` with a uniformly drawn position `floor(u * (i+1))`. -/
def fyGo (g : ℕ → ℚ) : ℕ → List ℚ → ℕ → List ℚ × ℕ
  | 0, l, k => (l, k)
  | i + 1, l, k =>
    let j := (⌊g k * ((i : ℚ) + 2)⌋).toNat
    fyGo g i (listSwap l (i + 1) j) (k + 1)

/-- Fisher-Yates shuffle of a list, threading the stream index.  The engine
only ever applies it to `annualReturns.slice(investmentHorizon)`, which is
empty, so in context it permutes nothing and draws nothing. -/
def fisherYates (g : ℕ → ℚ) (l : List ℚ) (k : ℕ) : List ℚ × ℕ :=
  fyGo g (l.length - 1) l k

/-- One simplified annual-step trial of `calculateSequenceRisk`
(lines 937-976).  Returns the final balance and the ran-out-of-money flag. -/
def seqTrialGo (inp : CalculatorInputs) (returns : List ℚ) : ℕ → ℕ → ℚ → ℚ × Bool
  | 0, _, b => (b, false)
  | fuel + 1, year, b =>
    -- contribution branch guard: `!retirementPhase.enabled || year < investmentHorizon`
    let afterCW : Option ℚ :=
      if ¬inp.retirementPhase.enabled = true ∨ year < inp.investmentHorizon then
        some (b + inp.monthlyContribution * 12)
      else
        let b1 := b - inp.retirementPhase.annualWithdrawal
        if b1 ≤ 0 then none else some b1
    match afterCW with
    | none => (0, true)
    | some x =>
      let b2 := x * (1 + returns.getD year 0)
      let annualFees := b2 * (inp.fees.expenseRatio + inp.fees.advisoryFee) / 100
      let b3 := b2 - annualFees
      let b4 :=
        if inp.accountType = .taxable then
          let dividends := returns.getD year 0 * b3 * 0.4
          b3 - dividends * (inp.taxRate.dividends / 100)
        else b3
      seqTrialGo inp returns fuel (year + 1) b4
    termination_by fuel _ _ => fuel

/-- The 1000-trial loop of `calculateSequenceRisk` (lines 903-982): per trial,
sample one annual return per horizon year, optionally shuffle the (empty)
withdrawal-phase slice, replay the simplified annual simulation, and record
the final balance and whether the trial depleted. -/
def seqTrialsGo (inp : CalculatorInputs) (includeWP : Bool) (g : ℕ → ℚ) :
    ℕ → ℕ → List ℚ × ℕ × ℕ
  | 0, k => ([], 0, k)
  | n + 1, k =>
    let returns0 := (List.range inp.investmentHorizon).map
      (fun y => inp.expectedAnnualReturn / 100 + ((g (k + y) - 1/2) * inp.returnVolatility) / 100)
    let k1 := k + inp.investmentHorizon
    let rk : List ℚ × ℕ :=
      if includeWP = true ∧ inp.retirementPhase.enabled = true then
        -- withdrawalStartYear is set to investmentHorizon, so the shuffled
        -- slice `annualReturns.slice(investmentHorizon)` is empty
        let sh := fisherYates g (returns0.drop inp.investmentHorizon) k1
        (returns0.take inp.investmentHorizon ++ sh.1, sh.2)
      else (returns0, k1)
    let t := seqTrialGo inp rk.1 inp.investmentHorizon 0 inp.initialInvestment
    let rest := seqTrialsGo inp includeWP g n rk.2
    (t.1 :: rest.1, rest.2.1 + (if t.2 then 0 else 1), rest.2.2)

/-- `calculateSequenceRisk(inputs, includeWithdrawalPhase)`, returning the
analysis and the next stream index. -/
def calculateSequenceRisk (inp : CalculatorInputs) (includeWP : Bool)
    (g : ℕ → ℚ) (k : ℕ) : SequenceRiskAnalysis × ℕ :=
  if inp.returnVolatility = 0 then
    let finalBalance := szMonths inp (inp.investmentHorizon * 12) inp.initialInvestment
    let successRate : ℚ :=
      if includeWP = true ∧ inp.retirementPhase.enabled = true then
        let yearsLasted := szRetYears inp inp.retirementPhase.retirementYears 0 finalBalance 0
        if inp.retirementPhase.retirementYears ≤ yearsLasted then 1 else 0
      else 1
    ({ worstCaseScenario := finalBalance * 0.95
       bestCaseScenario := finalBalance * 1.05
       medianScenario := finalBalance
       successRate := successRate }, k)
  else
    let trials := seqTrialsGo inp includeWP g 1000 k
    (percentileSummary trials.1 ((trials.2.1 : ℚ) / 1000), trials.2.2)

/-! ### Accumulation simulator (stochastic headline path, lines 341-594) -/

/-- One month of the accumulation loop. -/
structure AccumMonthResult where
  w : WithdrawalOutcome
  contribution : ℚ
  earnTD : ℚ
  earnTF : ℚ
  earnTx : ℚ
  fee : ℚ
  divTax : ℚ
  bal : Balances

/-- Body of one month of the accumulation loop (lines 407-539).  `u1` backs
the base return-modifier draw and `u2` the 5%-probability fat-tail draw; the
source draws both every month. -/
def accumMonth (inp : CalculatorInputs) (year : ℕ) (isWP : Bool) (mw u1 u2 : ℚ)
    (b : Balances) : AccumMonthResult :=
  let cm := inp.monthlyContribution * (1 + inp.annualContributionIncrease / 100) ^ year
  let cw : Balances × ℚ × WithdrawalOutcome :=
    if isWP = false then
      let cs := contributionSplit inp.accountType inp.accountAllocation cm
      let b1 : Balances :=
        ⟨b.taxDeferred + cs.taxDeferred, b.taxFree + cs.taxFree, b.taxable + cs.taxable⟩
      (b1, cm, .skip b1)
    else if 0 < mw then
      let w := withdrawalStep inp.taxRate mw b
      (w.bal, 0, w)
    else (b, 0, .skip b)
  let b1 := cw.1
  let modifier0 := ((u1 - 1/2) * inp.returnVolatility) / sqrtTwelve / 100
  let monthlyReturnModifier := if u2 < 0.05 then modifier0 * 2 else modifier0
  let monthlyReturn := inp.expectedAnnualReturn / 12 / 100 + monthlyReturnModifier
  let earnTD := b1.taxDeferred * monthlyReturn
  let earnTF := b1.taxFree * monthlyReturn
  let earnTx := b1.taxable * monthlyReturn
  let mfr := inp.fees.expenseRatio / 12 / 100 + inp.fees.advisoryFee / 12 / 100
  let feeTD := b1.taxDeferred * mfr
  let feeTF := b1.taxFree * mfr
  let feeTx := b1.taxable * mfr
  let b2 : Balances := ⟨b1.taxDeferred - feeTD, b1.taxFree - feeTF, b1.taxable - feeTx⟩
  let divTax := if 0 < b2.taxable then earnTx * 0.4 * (inp.taxRate.dividends / 100) else 0
  let b3 : Balances := ⟨b2.taxDeferred, b2.taxFree, b2.taxable - divTax⟩
  let b4 : Balances := ⟨b3.taxDeferred + earnTD, b3.taxFree + earnTF, b3.taxable + earnTx⟩
  ⟨cw.2.2, cw.2.1, earnTD, earnTF, earnTx, feeTD + feeTF + feeTx, divTax, b4⟩

/-- Yearly accumulators of the accumulation loop. -/
structure AccumYearState where
  bal : Balances
  idx : ℕ
  yC : ℚ
  yW : ℚ
  yWT : ℚ
  yETD : ℚ
  yETF : ℚ
  yETx : ℚ
  yF : ℚ
  yT : ℚ

/-- Fold of `accumMonth` over the twelve months of one accumulation year. -/
def accumMonthsGo (inp : CalculatorInputs) (year : ℕ) (isWP : Bool) (mw : ℚ)
    (g : ℕ → ℚ) : ℕ → AccumYearState → AccumYearState
  | 0, s => s
  | n + 1, s =>
    let m := accumMonth inp year isWP mw (g s.idx) (g (s.idx + 1)) s.bal
    accumMonthsGo inp year isWP mw g n
      { bal := m.bal
        idx := s.idx + 2
        yC := s.yC + m.contribution
        yW := s.yW + m.w.recordedDelta
        yWT := s.yWT + m.w.taxesDelta
        yETD := s.yETD + m.earnTD
        yETF := s.yETF + m.earnTF
        yETx := s.yETx + m.earnTx
        yF := s.yF + m.fee
        yT := s.yT + m.divTax }

/-- One row of the accumulation year-by-year report (lines 578-591). -/
structure AccumYearRow where
  year : ℕ
  startingBalance : ℚ
  contributions : ℚ
  withdrawals : ℚ
  withdrawalTaxes : ℚ
  earnings : ℚ
  fees : ℚ
  taxes : ℚ
  endingBalance : ℚ
  inflationAdjustedValue : ℚ
  remainingYears : Option ℕ
deriving DecidableEq

/-- One entry of the (locally built) `chartData` series (lines 541-565). -/
structure ChartRow where
  year : ℕ
  balance : ℚ
  contributions : ℚ
  withdrawals : ℚ
  earnings : ℚ
  inflationAdjustedValue : ℚ
deriving DecidableEq

/-- Function-level state of the accumulation year loop. -/
structure AccumState where
  bal : Balances
  idx : ℕ
  totalContributions : ℚ
  totalWithdrawals : ℚ
  totalTaxesPaid : ℚ
  details : List AccumYearRow
  chart : List ChartRow

/-- The accumulation year loop (lines 368-594).  The chart entries are
appended in source order: the year-0 seed entry is pushed during month 1 of
year 0 and the year-end entry during month 12 of every year. -/
def accumYearsGo (inp : CalculatorInputs) (g : ℕ → ℚ) :
    ℕ → ℕ → AccumState → AccumState
  | 0, _, s => s
  | fuel + 1, year, s =>
    let yearStart := s.bal.total
    let wsy := inp.retirementPhase.withdrawalStartYear.getD inp.investmentHorizon
    let isWP : Bool := inp.retirementPhase.enabled && decide (wsy ≤ year)
    let annualW : ℚ :=
      if isWP = true then
        if inp.retirementPhase.withdrawalAdjustForInflation then
          inp.retirementPhase.annualWithdrawal * (1 + inp.inflationRate / 100) ^ (year - wsy)
        else inp.retirementPhase.annualWithdrawal
      else 0
    let mw := if isWP = true then annualW / 12 else 0
    let ys := accumMonthsGo inp year isWP mw g 12
      ⟨s.bal, s.idx, 0, 0, 0, 0, 0, 0, 0, 0⟩
    let yearEarnings := ys.yETD + ys.yETF + ys.yETx
    let seed : List ChartRow :=
      if year = 0 then
        [{ year := 0, balance := inp.initialInvestment, contributions := 0,
           withdrawals := 0, earnings := 0,
           inflationAdjustedValue := inp.initialInvestment }]
      else []
    let monthTwelveEntry : ChartRow :=
      { year := year + 1
        balance := ys.bal.total
        contributions := ys.yC
        withdrawals := ys.yW
        earnings := yearEarnings
        inflationAdjustedValue := ys.bal.total / (1 + inp.inflationRate / 100) ^ (year + 1) }
    let row : AccumYearRow :=
      { year := year
        startingBalance := yearStart
        contributions := ys.yC
        withdrawals := ys.yW
        withdrawalTaxes := ys.yWT
        earnings := yearEarnings
        fees := ys.yF
        taxes := ys.yT + ys.yWT
        endingBalance := ys.bal.total
        inflationAdjustedValue := ys.bal.total / (1 + inp.inflationRate / 100) ^ year
        remainingYears := if isWP = true then some (inp.investmentHorizon - year) else none }
    accumYearsGo inp g fuel (year + 1)
      { bal := ys.bal
        idx := ys.idx
        totalContributions := s.totalContributions + ys.yC
        totalWithdrawals := s.totalWithdrawals + ys.yW
        totalTaxesPaid := s.totalTaxesPaid + ys.yWT + ys.yT
        details := s.details ++ [row]
        chart := s.chart ++ seed ++ [monthTwelveEntry] }

/-- The whole accumulation pass of the stochastic headline path, starting from
the initial balances and an empty report. -/
def runAccumulation (inp : CalculatorInputs) (g : ℕ → ℚ) (k : ℕ) : AccumState :=
  accumYearsGo inp g inp.investmentHorizon 0
    ⟨initBalances inp.accountType inp.accountAllocation inp.initialInvestment,
     k, inp.initialInvestment, 0, 0, [], []⟩

/-! ### Top-level results (`calculateMonthlyCompoundInterest`, lines 308-656) -/

/-- Summary block of `CalculatorResults`. -/
structure Summary where
  finalBalance : ℚ
  totalContributions : ℚ
  totalGrowth : ℚ
  inflationAdjustedValue : ℚ
  totalWithdrawals : ℚ
  totalTaxesPaid : ℚ
deriving DecidableEq

/-- Probability block of `CalculatorResults`. -/
structure ProbabilityMetrics where
  median : ℚ
  upperBound : ℚ
  lowerBound : ℚ
  successProbability : ℚ
  worstCaseBalance : ℚ
  successRate : ℚ
deriving DecidableEq

/-- `CalculatorResults`. -/
structure CalculatorResults where
  summary : Summary
  probabilityMetrics : ProbabilityMetrics
  yearByYearDetails : List AccumYearRow
  retirementPhaseResults : Option RetirementPhaseResults
deriving DecidableEq

/-- The guard of the deterministic escape hatch (lines 328-337). -/
def predictableGuard (inp : CalculatorInputs) : Prop :=
  inp.returnVolatility = 0 ∧ inp.investmentHorizon ≤ 1 ∧ inp.inflationRate = 0 ∧
  inp.fees.expenseRatio = 0 ∧ inp.fees.advisoryFee = 0 ∧
  inp.taxRate.income = 0 ∧ inp.taxRate.dividends = 0 ∧ inp.taxRate.capitalGains = 0

instance (inp : CalculatorInputs) : Decidable (predictableGuard inp) := by
  unfold predictableGuard; infer_instance

/-- `calculatePredictableTestResult` (lines 662-790): closed-form deterministic
results used when the guard holds. -/
def calculatePredictableTestResult (inp : CalculatorInputs) : CalculatorResults :=
  if inp.monthlyContribution = 0 then
    let annualRate := inp.expectedAnnualReturn / 100
    let finalBalance := inp.initialInvestment * (1 + annualRate) ^ inp.investmentHorizon
    { summary :=
        { finalBalance := finalBalance
          totalContributions := inp.initialInvestment
          totalGrowth := finalBalance - inp.initialInvestment
          inflationAdjustedValue := finalBalance
          totalWithdrawals := 0
          totalTaxesPaid := 0 }
      probabilityMetrics :=
        { median := finalBalance, upperBound := finalBalance, lowerBound := finalBalance
          successProbability := 1, worstCaseBalance := finalBalance, successRate := 1 }
      yearByYearDetails :=
        [{ year := 0, startingBalance := inp.initialInvestment, contributions := 0
           withdrawals := 0, withdrawalTaxes := 0, earnings := 0, fees := 0, taxes := 0
           endingBalance := inp.initialInvestment
           inflationAdjustedValue := inp.initialInvestment, remainingYears := none },
         { year := 1, startingBalance := inp.initialInvestment, contributions := 0
           withdrawals := 0, withdrawalTaxes := 0
           earnings := finalBalance - inp.initialInvestment, fees := 0, taxes := 0
           endingBalance := finalBalance
           inflationAdjustedValue := finalBalance, remainingYears := none }]
      retirementPhaseResults := none }
  else
    let annualRate := inp.expectedAnnualReturn / 100
    let yearlyContribution := inp.monthlyContribution * 12
    let finalBalance := inp.initialInvestment * (1 + annualRate) + yearlyContribution
    { summary :=
        { finalBalance := finalBalance
          totalContributions := inp.initialInvestment + yearlyContribution
          totalGrowth := finalBalance - (inp.initialInvestment + yearlyContribution)
          inflationAdjustedValue := finalBalance
          totalWithdrawals := 0
          totalTaxesPaid := 0 }
      probabilityMetrics :=
        { median := finalBalance, upperBound := finalBalance, lowerBound := finalBalance
          successProbability := 1, worstCaseBalance := finalBalance, successRate := 1 }
      yearByYearDetails :=
        [{ year := 0, startingBalance := inp.initialInvestment, contributions := 0
           withdrawals := 0, withdrawalTaxes := 0, earnings := 0, fees := 0, taxes := 0
           endingBalance := inp.initialInvestment
           inflationAdjustedValue := inp.initialInvestment, remainingYears := none },
         { year := 1, startingBalance := inp.initialInvestment
           contributions := yearlyContribution
           withdrawals := 0, withdrawalTaxes := 0
           earnings := inp.initialInvestment * annualRate, fees := 0, taxes := 0
           endingBalance := finalBalance
           inflationAdjustedValue := finalBalance, remainingYears := none }]
      retirementPhaseResults := none }

/-- `calculateMonthlyCompoundInterest(inputs)` over an explicit random stream
`g` with next-draw index `k`. -/
def calculateMonthlyCompoundInterest (inp : CalculatorInputs) (g : ℕ → ℚ)
    (k : ℕ) : CalculatorResults :=
  if predictableGuard inp then calculatePredictableTestResult inp
  else
    let acc := runAccumulation inp g k
    let sra := calculateSequenceRisk inp inp.retirementPhase.enabled g acc.idx
    let finalBalance := acc.bal.total
    let results : CalculatorResults :=
      { summary :=
          { finalBalance := finalBalance
            totalContributions := acc.totalContributions
            totalGrowth := finalBalance - acc.totalContributions + acc.totalWithdrawals
            inflationAdjustedValue :=
              finalBalance / (1 + inp.inflationRate / 100) ^ inp.investmentHorizon
            totalWithdrawals := acc.totalWithdrawals
            totalTaxesPaid := acc.totalTaxesPaid }
        probabilityMetrics :=
          { median := sra.1.medianScenario
            upperBound := sra.1.bestCaseScenario
            lowerBound := sra.1.worstCaseScenario
            successProbability := 0.9
            worstCaseBalance := sra.1.worstCaseScenario
            successRate := sra.1.successRate }
        yearByYearDetails := acc.details
        retirementPhaseResults := none }
    if inp.retirementPhase.enabled then
      let ret := calculateRetirementPhase inp finalBalance g sra.2
      { results with
          retirementPhaseResults :=
            some { ret.1 with
                     summary := { ret.1.summary with startingBalance := finalBalance } } }
    else results

/-! ### Concrete example inputs used in witnesses and counterexamples -/

/-- The all-zeroes random stream. -/
def gZero : ℕ → ℚ := fun _ => 0

/-- A disabled retirement phase. -/
def baseRetPhase : RetirementPhase where
  enabled := false
  annualWithdrawal := 0
  withdrawalAdjustForInflation := true
  retirementYears := 30
  retirementReturn := 0
  withdrawalStartYear := none

/-- The README's deterministic test scenario: 10000 at 10% for one year,
no contributions, no volatility, no costs. -/
def inpSimple : CalculatorInputs where
  initialInvestment := 10000
  monthlyContribution := 0
  annualContributionIncrease := 0
  investmentHorizon := 1
  expectedAnnualReturn := 10
  returnVolatility := 0
  inflationRate := 0
  taxRate := ⟨0, 0, 0⟩
  fees := ⟨0, 0⟩
  accountType := .taxFree
  accountAllocation := ⟨0, 100⟩
  retirementPhase := baseRetPhase

/-- Same scenario over two years (fails the deterministic guard, so the
stochastic headline path runs). -/
def inpZeroH2 : CalculatorInputs :=
  { inpSimple with investmentHorizon := 2 }

/-- A stochastic scenario (volatility 15, two years). -/
def inpStoch : CalculatorInputs :=
  { inpSimple with investmentHorizon := 2, returnVolatility := 15, inflationRate := 2 }

/-- Retirement scenario with a negative retirement return: the annual
withdrawal 60 exceeds `100 × (1 + (-50)/100) = 50`, yet the balance survives
year 0 (100 - 60 = 40 > 0) and only runs dry during year 1. -/
def inpRetNeg : CalculatorInputs :=
  { inpSimple with
      expectedAnnualReturn := -50
      retirementPhase :=
        { enabled := true
          annualWithdrawal := 60
          withdrawalAdjustForInflation := false
          retirementYears := 2
          retirementReturn := -50
          withdrawalStartYear := none } }

/-- Retirement scenario with non-negative return and withdrawal exceeding the
grown starting balance (200 > 100 × 1.05). -/
def inpRetPos : CalculatorInputs :=
  { inpSimple with
      expectedAnnualReturn := 5
      retirementPhase :=
        { enabled := true
          annualWithdrawal := 200
          withdrawalAdjustForInflation := false
          retirementYears := 30
          retirementReturn := 5
          withdrawalStartYear := none } }

/-! ### Lemmas about the withdrawal sequencer -/

theorem min_zero_of_guard_false {x y : ℚ} (hx : 0 ≤ x) (hy : 0 ≤ y)
    (h : ¬(0 < x ∧ 0 < y)) : min x y = 0 := by
  rcases not_and_or.mp h with h' | h'
  · have hx0 : x = 0 := le_antisymm (not_lt.mp h') hx
    rw [hx0]
    exact min_eq_left hy
  · have hy0 : y = 0 := le_antisymm (not_lt.mp h') hy
    rw [hy0]
    exact min_eq_right hx

/-- Full characterization of one withdrawal pass on non-negative balances:
the three draws are the clamped cascade `min(remaining, balance)` in the fixed
order taxable, tax-free, tax-deferred; the taxable draw is taxed at
`0.5 × amount × capitalGains/100`, the tax-deferred draw at
`amount × income/100`; each balance decreases by exactly its draw; the
shortfall is the unmet remainder. -/
theorem withdrawalStep_spec (tax : TaxRate) (need : ℚ) (b : Balances)
    (hTD : 0 ≤ b.taxDeferred) (hTF : 0 ≤ b.taxFree) (hTx : 0 ≤ b.taxable)
    (hneed : 0 ≤ need) :
    (withdrawalStep tax need b).drawnTaxable = min need b.taxable ∧
    (withdrawalStep tax need b).drawnTaxFree =
      min (need - min need b.taxable) b.taxFree ∧
    (withdrawalStep tax need b).drawnTaxDeferred =
      min (need - min need b.taxable - min (need - min need b.taxable) b.taxFree)
        b.taxDeferred ∧
    (withdrawalStep tax need b).capitalGainsTax =
      (withdrawalStep tax need b).drawnTaxable * (1/2) * (tax.capitalGains / 100) ∧
    (withdrawalStep tax need b).incomeTax =
      (withdrawalStep tax need b).drawnTaxDeferred * (tax.income / 100) ∧
    (withdrawalStep tax need b).bal.taxDeferred =
      b.taxDeferred - (withdrawalStep tax need b).drawnTaxDeferred ∧
    (withdrawalStep tax need b).bal.taxFree =
      b.taxFree - (withdrawalStep tax need b).drawnTaxFree ∧
    (withdrawalStep tax need b).bal.taxable =
      b.taxable - (withdrawalStep tax need b).drawnTaxable ∧
    (withdrawalStep tax need b).shortfall =
      need - (withdrawalStep tax need b).drawnTaxable
        - (withdrawalStep tax need b).drawnTaxFree
        - (withdrawalStep tax need b).drawnTaxDeferred := by
  have hrem1 : 0 ≤ need - min need b.taxable :=
    sub_nonneg.mpr (min_le_left need b.taxable)
  have hrem2 : 0 ≤ need - min need b.taxable
      - min (need - min need b.taxable) b.taxFree :=
    sub_nonneg.mpr (min_le_left _ b.taxFree)
  dsimp only [withdrawalStep]
  by_cases h1 : 0 < b.taxable
  · rw [if_pos h1]
    dsimp only
    by_cases h2 : 0 < need - min need b.taxable ∧ 0 < b.taxFree
    · rw [if_pos h2]
      by_cases h3 : 0 < need - min need b.taxable
          - min (need - min need b.taxable) b.taxFree ∧ 0 < b.taxDeferred
      · rw [if_pos h3]
        exact ⟨rfl, rfl, rfl, rfl, rfl, rfl, rfl, rfl, rfl⟩
      · rw [if_neg h3]
        have e3 := min_zero_of_guard_false hrem2 hTD h3
        exact ⟨rfl, rfl, e3.symm, rfl, (zero_mul _).symm, rfl, rfl, rfl, rfl⟩
    · rw [if_neg h2]
      have e2 := min_zero_of_guard_false hrem1 hTF h2
      by_cases h3 : 0 < need - min need b.taxable - 0 ∧ 0 < b.taxDeferred
      · rw [if_pos h3]
        exact ⟨rfl, e2.symm, by rw [e2], rfl, rfl, rfl, rfl, rfl, rfl⟩
      · rw [if_neg h3]
        have h3' : ¬(0 < need - min need b.taxable
            - min (need - min need b.taxable) b.taxFree ∧ 0 < b.taxDeferred) := by
          rw [e2]; exact h3
        have e3 := min_zero_of_guard_false hrem2 hTD h3'
        exact ⟨rfl, e2.symm, e3.symm, rfl, (zero_mul _).symm, rfl, rfl, rfl, rfl⟩
  · rw [if_neg h1]
    dsimp only
    have hb0 : b.taxable = 0 := le_antisymm (not_lt.mp h1) hTx
    have e1 : min need b.taxable = 0 := by rw [hb0]; exact min_eq_right hneed
    rw [e1]
    have hrem1' : (0:ℚ) ≤ need - 0 := by rw [sub_zero]; exact hneed
    have hrem2' : (0:ℚ) ≤ need - 0 - min (need - 0) b.taxFree :=
      sub_nonneg.mpr (min_le_left _ _)
    by_cases h2 : 0 < need - 0 ∧ 0 < b.taxFree
    · rw [if_pos h2]
      by_cases h3 : 0 < need - 0 - min (need - 0) b.taxFree ∧ 0 < b.taxDeferred
      · rw [if_pos h3]
        exact ⟨rfl, rfl, rfl, by simp, rfl, rfl, rfl, rfl, rfl⟩
      · rw [if_neg h3]
        have e3 := min_zero_of_guard_false hrem2' hTD h3
        exact ⟨rfl, rfl, e3.symm, by simp, (zero_mul _).symm, rfl, rfl, rfl, rfl⟩
    · rw [if_neg h2]
      have e2 := min_zero_of_guard_false hrem1' hTF h2
      by_cases h3 : 0 < need - 0 - 0 ∧ 0 < b.taxDeferred
      · rw [if_pos h3]
        exact ⟨rfl, e2.symm, by rw [e2], by simp, rfl, rfl, rfl, rfl, rfl⟩
      · rw [if_neg h3]
        have h3' : ¬(0 < need - 0 - min (need - 0) b.taxFree ∧ 0 < b.taxDeferred) := by
          rw [e2]; exact h3
        have e3 := min_zero_of_guard_false hrem2' hTD h3'
        exact ⟨rfl, e2.symm, e3.symm, by simp, (zero_mul _).symm, rfl, rfl, rfl, rfl⟩

/-- Non-negativity and accounting facts for one withdrawal pass. -/
theorem withdrawalStep_nonneg (tax : TaxRate) (need : ℚ) (b : Balances)
    (hTD : 0 ≤ b.taxDeferred) (hTF : 0 ≤ b.taxFree) (hTx : 0 ≤ b.taxable)
    (hneed : 0 ≤ need) :
    0 ≤ (withdrawalStep tax need b).bal.taxDeferred ∧
    0 ≤ (withdrawalStep tax need b).bal.taxFree ∧
    0 ≤ (withdrawalStep tax need b).bal.taxable ∧
    0 ≤ (withdrawalStep tax need b).shortfall ∧
    (withdrawalStep tax need b).drawnTotal + (withdrawalStep tax need b).shortfall
      = need ∧
    (withdrawalStep tax need b).bal.total
      = b.total - (withdrawalStep tax need b).drawnTotal ∧
    (withdrawalStep tax need b).recordedDelta
      = (withdrawalStep tax need b).drawnTotal - (withdrawalStep tax need b).shortfall := by
  obtain ⟨s1, s2, s3, _, _, s6, s7, s8, s9⟩ :=
    withdrawalStep_spec tax need b hTD hTF hTx hneed
  have hm1le : min need b.taxable ≤ b.taxable := min_le_right _ _
  have hm1le' : min need b.taxable ≤ need := min_le_left _ _
  have hrem1 : 0 ≤ need - min need b.taxable := sub_nonneg.mpr hm1le'
  have hm2le : min (need - min need b.taxable) b.taxFree ≤ b.taxFree := min_le_right _ _
  have hm2le' : min (need - min need b.taxable) b.taxFree ≤ need - min need b.taxable :=
    min_le_left _ _
  have hrem2 : 0 ≤ need - min need b.taxable - min (need - min need b.taxable) b.taxFree :=
    sub_nonneg.mpr hm2le'
  have hm3le : min (need - min need b.taxable - min (need - min need b.taxable) b.taxFree)
      b.taxDeferred ≤ b.taxDeferred := min_le_right _ _
  have hm3le' : min (need - min need b.taxable - min (need - min need b.taxable) b.taxFree)
        b.taxDeferred
      ≤ need - min need b.taxable - min (need - min need b.taxable) b.taxFree :=
    min_le_left _ _
  have hsf : 0 ≤ (withdrawalStep tax need b).shortfall := by
    rw [s9, s1, s2, s3]; linarith
  refine ⟨?_, ?_, ?_, hsf, ?_, ?_, ?_⟩
  · rw [s6, s3]; linarith
  · rw [s7, s2]; linarith
  · rw [s8, s1]; linarith
  · rw [WithdrawalOutcome.drawnTotal, s9]; ring
  · rw [Balances.total, Balances.total, WithdrawalOutcome.drawnTotal, s6, s7, s8]; ring
  · rw [WithdrawalOutcome.recordedDelta]
    rcases lt_or_eq_of_le hsf with h | h
    · rw [if_pos h]
    · rw [if_neg (by rw [← h]; exact lt_irrefl 0), ← h, sub_zero]

/-- The money-ran-out flag, once set, persists through the remaining months of
a retirement year. -/
theorem retMonthsGo_runOut_mono (inp : CalculatorInputs) (effRet : ℚ) (year : ℕ)
    (mw : ℚ) (g : ℕ → ℚ) :
    ∀ (n : ℕ) (s : RetYearState), s.runOut = true →
      (retMonthsGo inp effRet year mw g n s).runOut = true := by
  intro n
  induction n with
  | zero => intro s h; exact h
  | succ n ih =>
    intro s h
    simp only [retMonthsGo]
    apply ih
    simp [retYearStep, h]

/-- C2: the withdrawal month of both simulators delegates to the clamped
cascade `withdrawalStep`, whose draws and taxes follow the fixed
taxable / tax-free / tax-deferred order. -/
theorem C2_withdrawal_order (tax : TaxRate) (need : ℚ) (b : Balances)
    (hTD : 0 ≤ b.taxDeferred) (hTF : 0 ≤ b.taxFree) (hTx : 0 ≤ b.taxable)
    (hneed : 0 < need) :
    (∀ (inp : CalculatorInputs) (effRet : ℚ) (year : ℕ) (u : ℚ),
       inp.taxRate = tax → (retMonth inp effRet year need u b).w = withdrawalStep tax need b) ∧
    (∀ (inp : CalculatorInputs) (year : ℕ) (u1 u2 : ℚ),
       inp.taxRate = tax →
         (accumMonth inp year true need u1 u2 b).w = withdrawalStep tax need b) ∧
    (withdrawalStep tax need b).drawnTaxable = min need b.taxable ∧
    (withdrawalStep tax need b).drawnTaxFree =
      min (need - (withdrawalStep tax need b).drawnTaxable) b.taxFree ∧
    (withdrawalStep tax need b).drawnTaxDeferred =
      min (need - (withdrawalStep tax need b).drawnTaxable
            - (withdrawalStep tax need b).drawnTaxFree) b.taxDeferred ∧
    (withdrawalStep tax need b).capitalGainsTax =
      (1/2) * (withdrawalStep tax need b).drawnTaxable * (tax.capitalGains / 100) ∧
    (withdrawalStep tax need b).incomeTax =
      (withdrawalStep tax need b).drawnTaxDeferred * (tax.income / 100) ∧
    (withdrawalStep tax need b).taxesDelta =
      (withdrawalStep tax need b).capitalGainsTax + (withdrawalStep tax need b).incomeTax ∧
    (need < b.taxable →
      (withdrawalStep tax need b).bal.taxDeferred = b.taxDeferred ∧
      (withdrawalStep tax need b).bal.taxFree = b.taxFree ∧
      (withdrawalStep tax need b).bal.taxable = b.taxable - need ∧
      (withdrawalStep tax need b).capitalGainsTax =
        (1/2) * need * (tax.capitalGains / 100) ∧
      (withdrawalStep tax need b).incomeTax = 0) := by
  obtain ⟨s1, s2, s3, s4, s5, s6, s7, s8, _⟩ :=
    withdrawalStep_spec tax need b hTD hTF hTx hneed.le
  refine ⟨?_, ?_, s1, by rw [s1]; exact s2, by rw [s1, s2]; exact s3,
    by rw [s4]; ring, s5, rfl, ?_⟩
  · intro inp effRet year u htax
    rw [retMonth]
    simp only [if_pos hneed, htax]
  · intro inp year u1 u2 htax
    rw [accumMonth]
    simp only [Bool.true_eq_false, if_false, if_pos hneed, htax, reduceIte]
  · intro hlt
    have e1 : min need b.taxable = need := min_eq_left hlt.le
    have e2 : min (need - min need b.taxable) b.taxFree = 0 := by
      rw [e1, sub_self]
      exact min_eq_left hTF
    have e3 : min (need - min need b.taxable - min (need - min need b.taxable) b.taxFree)
        b.taxDeferred = 0 := by
      rw [e2, e1, sub_self, sub_zero]
      exact min_eq_left hTD
    refine ⟨?_, ?_, ?_, ?_, ?_⟩
    · rw [s6, s3, e3, sub_zero]
    · rw [s7, s2, e2, sub_zero]
    · rw [s8, s1, e1]
    · rw [s4, s1, e1]; ring
    · rw [s5, s3, e3, zero_mul]

/-- C3: a withdrawal pass never drives a balance below zero; the unmet
remainder is non-negative, is subtracted from the recorded withdrawal total,
and (in the retirement loop) raises the persistent money-ran-out flag. -/
theorem C3_balances_nonneg (tax : TaxRate) (need : ℚ) (b : Balances)
    (hTD : 0 ≤ b.taxDeferred) (hTF : 0 ≤ b.taxFree) (hTx : 0 ≤ b.taxable)
    (hneed : 0 ≤ need) :
    0 ≤ (withdrawalStep tax need b).bal.taxDeferred ∧
    0 ≤ (withdrawalStep tax need b).bal.taxFree ∧
    0 ≤ (withdrawalStep tax need b).bal.taxable ∧
    0 ≤ (withdrawalStep tax need b).shortfall ∧
    (withdrawalStep tax need b).drawnTotal + (withdrawalStep tax need b).shortfall
      = need ∧
    (withdrawalStep tax need b).recordedDelta
      = (withdrawalStep tax need b).drawnTotal - (withdrawalStep tax need b).shortfall ∧
    (∀ (inp : CalculatorInputs) (effRet : ℚ) (year : ℕ) (g : ℕ → ℚ) (n : ℕ)
       (s : RetYearState), s.runOut = true →
         (retMonthsGo inp effRet year need g n s).runOut = true) ∧
    (∀ (inp : CalculatorInputs) (effRet : ℚ) (year : ℕ) (g : ℕ → ℚ) (n : ℕ)
       (s : RetYearState), s.bal = b → inp.taxRate = tax → 0 < need →
         0 < (withdrawalStep tax need b).shortfall →
         (retMonthsGo inp effRet year need g (n + 1) s).runOut = true) := by
  obtain ⟨n1, n2, n3, n4, n5, _, n7⟩ :=
    withdrawalStep_nonneg tax need b hTD hTF hTx hneed
  refine ⟨n1, n2, n3, n4, n5, n7, ?_, ?_⟩
  · intro inp effRet year g n s h
    exact retMonthsGo_runOut_mono inp effRet year need g n s h
  · intro inp effRet year g n s hb htax hpos hsf
    simp only [retMonthsGo]
    apply retMonthsGo_runOut_mono
    have hw : (retMonth inp effRet year need (g s.idx) s.bal).w = withdrawalStep tax need b := by
      rw [retMonth]
      simp only [if_pos hpos, htax, hb]
    simp [retYearStep, hw, hsf]

/-- C2 witness. -/
theorem C2_witness :
    (0 ≤ (10:ℚ)) ∧ (0 ≤ (20:ℚ)) ∧ (0 ≤ (50:ℚ)) ∧ ((0:ℚ) < 7) ∧
    ((withdrawalStep ⟨25, 15, 20⟩ 7 ⟨10, 20, 50⟩).drawnTaxable = min 7 (50:ℚ) ∧
     (withdrawalStep ⟨25, 15, 20⟩ 7 ⟨10, 20, 50⟩).drawnTaxFree =
       min (7 - (withdrawalStep ⟨25, 15, 20⟩ 7 ⟨10, 20, 50⟩).drawnTaxable) 20 ∧
     (withdrawalStep ⟨25, 15, 20⟩ 7 ⟨10, 20, 50⟩).drawnTaxDeferred =
       min (7 - (withdrawalStep ⟨25, 15, 20⟩ 7 ⟨10, 20, 50⟩).drawnTaxable
             - (withdrawalStep ⟨25, 15, 20⟩ 7 ⟨10, 20, 50⟩).drawnTaxFree) 10 ∧
     (withdrawalStep ⟨25, 15, 20⟩ 7 ⟨10, 20, 50⟩).capitalGainsTax =
       (1/2) * (withdrawalStep ⟨25, 15, 20⟩ 7 ⟨10, 20, 50⟩).drawnTaxable * (20 / 100) ∧
     (withdrawalStep ⟨25, 15, 20⟩ 7 ⟨10, 20, 50⟩).incomeTax =
       (withdrawalStep ⟨25, 15, 20⟩ 7 ⟨10, 20, 50⟩).drawnTaxDeferred * (25 / 100) ∧
     (withdrawalStep ⟨25, 15, 20⟩ 7 ⟨10, 20, 50⟩).taxesDelta =
       (withdrawalStep ⟨25, 15, 20⟩ 7 ⟨10, 20, 50⟩).capitalGainsTax +
         (withdrawalStep ⟨25, 15, 20⟩ 7 ⟨10, 20, 50⟩).incomeTax ∧
     ((7:ℚ) < 50 →
       (withdrawalStep ⟨25, 15, 20⟩ 7 ⟨10, 20, 50⟩).bal.taxDeferred = 10 ∧
       (withdrawalStep ⟨25, 15, 20⟩ 7 ⟨10, 20, 50⟩).bal.taxFree = 20 ∧
       (withdrawalStep ⟨25, 15, 20⟩ 7 ⟨10, 20, 50⟩).bal.taxable = 50 - 7 ∧
       (withdrawalStep ⟨25, 15, 20⟩ 7 ⟨10, 20, 50⟩).capitalGainsTax =
         (1/2) * 7 * (20 / 100) ∧
       (withdrawalStep ⟨25, 15, 20⟩ 7 ⟨10, 20, 50⟩).incomeTax = 0)) := by
  have h := C2_withdrawal_order ⟨25, 15, 20⟩ 7 ⟨10, 20, 50⟩
    (by norm_num) (by norm_num) (by norm_num) (by norm_num)
  exact ⟨by norm_num, by norm_num, by norm_num, by norm_num,
    h.2.2.1, h.2.2.2.1, h.2.2.2.2.1, h.2.2.2.2.2.1, h.2.2.2.2.2.2.1,
    h.2.2.2.2.2.2.2.1, h.2.2.2.2.2.2.2.2⟩

/-- C3 witness. -/
theorem C3_witness :
    (0 ≤ (0:ℚ)) ∧ (0 ≤ (4:ℚ)) ∧ (0 ≤ (1:ℚ)) ∧ (0 ≤ (9:ℚ)) ∧
    (0 ≤ (withdrawalStep ⟨30, 10, 15⟩ 9 ⟨0, 4, 1⟩).bal.taxDeferred ∧
     0 ≤ (withdrawalStep ⟨30, 10, 15⟩ 9 ⟨0, 4, 1⟩).bal.taxFree ∧
     0 ≤ (withdrawalStep ⟨30, 10, 15⟩ 9 ⟨0, 4, 1⟩).bal.taxable ∧
     0 ≤ (withdrawalStep ⟨30, 10, 15⟩ 9 ⟨0, 4, 1⟩).shortfall ∧
     (withdrawalStep ⟨30, 10, 15⟩ 9 ⟨0, 4, 1⟩).drawnTotal +
       (withdrawalStep ⟨30, 10, 15⟩ 9 ⟨0, 4, 1⟩).shortfall = 9 ∧
     (withdrawalStep ⟨30, 10, 15⟩ 9 ⟨0, 4, 1⟩).recordedDelta =
       (withdrawalStep ⟨30, 10, 15⟩ 9 ⟨0, 4, 1⟩).drawnTotal -
         (withdrawalStep ⟨30, 10, 15⟩ 9 ⟨0, 4, 1⟩).shortfall ∧
     (∀ (inp : CalculatorInputs) (effRet : ℚ) (year : ℕ) (g : ℕ → ℚ) (n : ℕ)
        (s : RetYearState), s.runOut = true →
          (retMonthsGo inp effRet year 9 g n s).runOut = true) ∧
     (∀ (inp : CalculatorInputs) (effRet : ℚ) (year : ℕ) (g : ℕ → ℚ) (n : ℕ)
        (s : RetYearState), s.bal = ⟨0, 4, 1⟩ → inp.taxRate = ⟨30, 10, 15⟩ → (0:ℚ) < 9 →
          0 < (withdrawalStep ⟨30, 10, 15⟩ 9 ⟨0, 4, 1⟩).shortfall →
          (retMonthsGo inp effRet year 9 g (n + 1) s).runOut = true)) := by
  refine ⟨by norm_num, by norm_num, by norm_num, by norm_num, ?_⟩
  exact C3_balances_nonneg ⟨30, 10, 15⟩ 9 ⟨0, 4, 1⟩
    (by norm_num) (by norm_num) (by norm_num) (by norm_num)

/-- A single retirement month of year 0 does not depend on its random draw. -/
theorem retMonth_year0_draw_indep (inp : CalculatorInputs) (effRet mw u u' : ℚ)
    (b : Balances) :
    retMonth inp effRet 0 mw u b = retMonth inp effRet 0 mw u' b := by
  simp [retMonth]

/-- The stepped state of a retirement month of year 0 does not depend on the
random draw. -/
theorem retYearStep_year0_draw_indep (inp : CalculatorInputs) (effRet mw u u' : ℚ)
    (s : RetYearState) :
    retYearStep inp effRet 0 mw u s = retYearStep inp effRet 0 mw u' s := by
  unfold retYearStep
  rw [retMonth_year0_draw_indep inp effRet mw u u' s.bal]

/-- The whole month loop of retirement year 0 is independent of the random
stream: stochastic growth only starts at year 1. -/
theorem retMonthsGo_year0_stream_indep (inp : CalculatorInputs) (effRet mw : ℚ)
    (g g' : ℕ → ℚ) : ∀ (n : ℕ) (s : RetYearState),
      retMonthsGo inp effRet 0 mw g n s = retMonthsGo inp effRet 0 mw g' n s := by
  intro n
  induction n with
  | zero => intro s; rfl
  | succ n ih =>
    intro s
    simp only [retMonthsGo]
    rw [retYearStep_year0_draw_indep inp effRet mw (g s.idx) (g' s.idx) s]
    exact ih _

/-- C5: every month of retirement year 0 applies a monthly return of exactly
zero: all recorded earnings vanish, the month (and the whole year-0 month
loop) does not depend on the random stream, and balances move only by the
withdrawal pass, the fee drag and the (zero) dividend tax. -/
theorem C5_year0_growth_skipped (inp : CalculatorInputs) (effRet mw u : ℚ)
    (b : Balances) :
    (retMonth inp effRet 0 mw u b).earnTD = 0 ∧
    (retMonth inp effRet 0 mw u b).earnTF = 0 ∧
    (retMonth inp effRet 0 mw u b).earnTx = 0 ∧
    (retMonth inp effRet 0 mw u b).divTax = 0 ∧
    retMonth inp effRet 0 mw u b = retMonth inp effRet 0 mw 0 b ∧
    (retMonth inp effRet 0 mw u b).bal.taxDeferred =
      (retMonth inp effRet 0 mw u b).w.bal.taxDeferred
        - (retMonth inp effRet 0 mw u b).w.bal.taxDeferred *
            (inp.fees.expenseRatio / 12 / 100 + inp.fees.advisoryFee / 12 / 100) ∧
    (retMonth inp effRet 0 mw u b).bal.taxFree =
      (retMonth inp effRet 0 mw u b).w.bal.taxFree
        - (retMonth inp effRet 0 mw u b).w.bal.taxFree *
            (inp.fees.expenseRatio / 12 / 100 + inp.fees.advisoryFee / 12 / 100) ∧
    (retMonth inp effRet 0 mw u b).bal.taxable =
      (retMonth inp effRet 0 mw u b).w.bal.taxable
        - (retMonth inp effRet 0 mw u b).w.bal.taxable *
            (inp.fees.expenseRatio / 12 / 100 + inp.fees.advisoryFee / 12 / 100) ∧
    (∀ (g g' : ℕ → ℚ) (n : ℕ) (s : RetYearState),
       retMonthsGo inp effRet 0 mw g n s = retMonthsGo inp effRet 0 mw g' n s) := by
  refine ⟨?_, ?_, ?_, ?_, ?_, ?_, ?_, ?_, ?_⟩
  · simp [retMonth]
  · simp [retMonth]
  · simp [retMonth]
  · simp [retMonth]
  · simp [retMonth]
  · simp [retMonth]
  · simp [retMonth]
  · simp [retMonth]
  · exact fun g g' n s => retMonthsGo_year0_stream_indep inp effRet mw g g' n s

/-- C9: with zero retirement return, zero volatility and zero annual
withdrawal, the reported longevity is the 100-year sentinel, not a division
by zero. -/
theorem C9_infinite_longevity_sentinel (inp : CalculatorInputs) (b0 : ℚ)
    (g : ℕ → ℚ) (k : ℕ)
    (hr : inp.retirementPhase.retirementReturn = 0)
    (hv : inp.returnVolatility = 0)
    (hw : inp.retirementPhase.annualWithdrawal = 0) :
    (calculateRetirementPhase inp b0 g k).1.summary.projectedLongevity = 100 := by
  simp [calculateRetirementPhase, hr, hv, hw]

/-- C9 witness. -/
theorem C9_witness :
    inpSimple.retirementPhase.retirementReturn = 0 ∧
    inpSimple.returnVolatility = 0 ∧
    inpSimple.retirementPhase.annualWithdrawal = 0 ∧
    (calculateRetirementPhase inpSimple 500 gZero 0).1.summary.projectedLongevity = 100 :=
  ⟨rfl, rfl, rfl, C9_infinite_longevity_sentinel inpSimple 500 gZero 0 rfl rfl rfl⟩

/-- C1: when the deterministic guard holds and there are no contributions,
the engine bypasses the stochastic loop (the result does not depend on the
random stream) and returns the closed-form annual compounding. -/
theorem C1_closed_form_escape_hatch (inp : CalculatorInputs) (g g' : ℕ → ℚ)
    (k k' : ℕ)
    (hv : inp.returnVolatility = 0) (hh : inp.investmentHorizon ≤ 1)
    (hi : inp.inflationRate = 0)
    (he : inp.fees.expenseRatio = 0) (ha : inp.fees.advisoryFee = 0)
    (hti : inp.taxRate.income = 0) (htd : inp.taxRate.dividends = 0)
    (htc : inp.taxRate.capitalGains = 0)
    (hmc : inp.monthlyContribution = 0) :
    calculateMonthlyCompoundInterest inp g k = calculateMonthlyCompoundInterest inp g' k' ∧
    (calculateMonthlyCompoundInterest inp g k).summary.finalBalance =
      inp.initialInvestment * (1 + inp.expectedAnnualReturn / 100) ^ inp.investmentHorizon ∧
    (calculateMonthlyCompoundInterest inp g k).summary.totalContributions =
      inp.initialInvestment := by
  have hguard : predictableGuard inp := ⟨hv, hh, hi, he, ha, hti, htd, htc⟩
  refine ⟨?_, ?_, ?_⟩
  · rw [calculateMonthlyCompoundInterest, calculateMonthlyCompoundInterest,
      if_pos hguard, if_pos hguard]
  · rw [calculateMonthlyCompoundInterest, if_pos hguard,
      calculatePredictableTestResult, if_pos hmc]
  · rw [calculateMonthlyCompoundInterest, if_pos hguard,
      calculatePredictableTestResult, if_pos hmc]

/-- C1 witness: the README scenario, 10000 at 10% over one year. -/
theorem C1_witness :
    inpSimple.returnVolatility = 0 ∧ inpSimple.investmentHorizon ≤ 1 ∧
    inpSimple.inflationRate = 0 ∧ inpSimple.fees.expenseRatio = 0 ∧
    inpSimple.fees.advisoryFee = 0 ∧ inpSimple.taxRate.income = 0 ∧
    inpSimple.taxRate.dividends = 0 ∧ inpSimple.taxRate.capitalGains = 0 ∧
    inpSimple.monthlyContribution = 0 ∧
    (calculateMonthlyCompoundInterest inpSimple gZero 0 =
       calculateMonthlyCompoundInterest inpSimple (fun n => (n : ℚ)) 7 ∧
     (calculateMonthlyCompoundInterest inpSimple gZero 0).summary.finalBalance =
       inpSimple.initialInvestment *
         (1 + inpSimple.expectedAnnualReturn / 100) ^ inpSimple.investmentHorizon ∧
     (calculateMonthlyCompoundInterest inpSimple gZero 0).summary.totalContributions =
       inpSimple.initialInvestment) :=
  ⟨rfl, by decide, rfl, rfl, rfl, rfl, rfl, rfl, rfl,
   C1_closed_form_escape_hatch inpSimple gZero (fun n => (n : ℚ)) 0 7
     rfl (by decide) rfl rfl rfl rfl rfl rfl rfl⟩

/-- C7: on the stochastic headline path the inflation-adjusted value times the
horizon-length inflation factor recovers the final balance exactly (the input
domain excludes inflation rates of -100% and below, §7 of the spec). -/
theorem C7_inflation_round_trip (inp : CalculatorInputs) (g : ℕ → ℚ) (k : ℕ)
    (hng : ¬ predictableGuard inp) (hi : inp.inflationRate ≠ -100) :
    (calculateMonthlyCompoundInterest inp g k).summary.inflationAdjustedValue *
      (1 + inp.inflationRate / 100) ^ inp.investmentHorizon =
    (calculateMonthlyCompoundInterest inp g k).summary.finalBalance := by
  have hbase : (1 : ℚ) + inp.inflationRate / 100 ≠ 0 := by
    intro h
    apply hi
    have : inp.inflationRate / 100 = -1 := by linarith
    have := congrArg (fun x => x * 100) this
    simpa using this
  have hpow : ((1 : ℚ) + inp.inflationRate / 100) ^ inp.investmentHorizon ≠ 0 :=
    pow_ne_zero _ hbase
  rw [calculateMonthlyCompoundInterest, if_neg hng]
  by_cases he : inp.retirementPhase.enabled
  · simp only [he, if_true]
    exact div_mul_cancel₀ _ hpow
  · simp only [he, Bool.false_eq_true, if_false]
    exact div_mul_cancel₀ _ hpow

/-- C7 witness. -/
theorem C7_witness :
    ¬ predictableGuard inpStoch ∧ inpStoch.inflationRate ≠ -100 ∧
    (calculateMonthlyCompoundInterest inpStoch gZero 0).summary.inflationAdjustedValue *
        (1 + inpStoch.inflationRate / 100) ^ inpStoch.investmentHorizon =
      (calculateMonthlyCompoundInterest inpStoch gZero 0).summary.finalBalance :=
  ⟨by decide, by decide, C7_inflation_round_trip inpStoch gZero 0 (by decide) (by decide)⟩

/-- Inside a sequence-risk trial the year loop runs over `[0, horizon)`, so
the contribution-branch guard `year < investmentHorizon` always holds and the
trial can never be marked as having run out of money. -/
theorem seqTrialGo_no_ruin (inp : CalculatorInputs) (returns : List ℚ) :
    ∀ (fuel year : ℕ) (b : ℚ), year + fuel ≤ inp.investmentHorizon →
      (seqTrialGo inp returns fuel year b).2 = false := by
  intro fuel
  induction fuel with
  | zero => intro year b _; simp [seqTrialGo]
  | succ n ih =>
    intro year b h
    have hy : year < inp.investmentHorizon := by omega
    simp only [seqTrialGo]
    rw [if_pos (Or.inr hy)]
    exact ih (year + 1) _ (by omega)

/-- Every sequence-risk trial succeeds, and there are exactly `n` of them. -/
theorem seqTrialsGo_all_success (inp : CalculatorInputs) (includeWP : Bool)
    (g : ℕ → ℚ) : ∀ (n k : ℕ),
      (seqTrialsGo inp includeWP g n k).2.1 = n ∧
      (seqTrialsGo inp includeWP g n k).1.length = n := by
  intro n
  induction n with
  | zero => intro k; exact ⟨rfl, rfl⟩
  | succ n ih =>
    intro k
    simp only [seqTrialsGo]
    have hruin := seqTrialGo_no_ruin inp
    constructor
    · rw [hruin _ inp.investmentHorizon 0 inp.initialInvestment (by omega)]
      simp [(ih _).1]
    · simp [(ih _).2]

/-- C10: with non-zero volatility every Monte-Carlo trial of the sequence-risk
analyzer stays in the contribution branch (the guard `year <
investmentHorizon` holds throughout the loop), so no trial is marked
depleted and the reported success rate, including the one in the top-level
probability metrics, is exactly 1. -/
theorem C10_success_rate_always_one (inp : CalculatorInputs) (g : ℕ → ℚ)
    (k : ℕ) (hv : inp.returnVolatility ≠ 0) :
    (∀ (wp : Bool) (k' : ℕ), (calculateSequenceRisk inp wp g k').1.successRate = 1) ∧
    (calculateMonthlyCompoundInterest inp g k).probabilityMetrics.successRate = 1 := by
  have hrate : ∀ (wp : Bool) (k' : ℕ),
      (calculateSequenceRisk inp wp g k').1.successRate = 1 := by
    intro wp k'
    rw [calculateSequenceRisk, if_neg hv]
    show ((seqTrialsGo inp wp g 1000 k').2.1 : ℚ) / 1000 = 1
    rw [(seqTrialsGo_all_success inp wp g 1000 k').1]
    norm_num
  refine ⟨hrate, ?_⟩
  have hng : ¬ predictableGuard inp := fun hgu => hv hgu.1
  rw [calculateMonthlyCompoundInterest, if_neg hng]
  by_cases he : inp.retirementPhase.enabled
  · simp only [he, if_true]
    exact hrate true _
  · simp only [he, Bool.false_eq_true, if_false]
    exact hrate false _

/-- C10 witness. -/
theorem C10_witness :
    inpStoch.returnVolatility ≠ 0 ∧
    ((∀ (wp : Bool) (k' : ℕ),
        (calculateSequenceRisk inpStoch wp gZero k').1.successRate = 1) ∧
     (calculateMonthlyCompoundInterest inpStoch gZero 3).probabilityMetrics.successRate = 1) :=
  ⟨by decide, C10_success_rate_always_one inpStoch gZero 3 (by decide)⟩

/-- The accumulation year loop appends exactly one report row per simulated
year. -/
theorem accumYearsGo_details_length (inp : CalculatorInputs) (g : ℕ → ℚ) :
    ∀ (fuel year : ℕ) (s : AccumState),
      (accumYearsGo inp g fuel year s).details.length = s.details.length + fuel := by
  intro fuel
  induction fuel with
  | zero => intro year s; rfl
  | succ n ih =>
    intro year s
    simp only [accumYearsGo]
    rw [ih]
    simp
    omega

/-- From year 1 on, the accumulation year loop appends exactly one chart entry
per simulated year. -/
theorem accumYearsGo_chart_length_pos (inp : CalculatorInputs) (g : ℕ → ℚ) :
    ∀ (fuel year : ℕ) (s : AccumState), 1 ≤ year →
      (accumYearsGo inp g fuel year s).chart.length = s.chart.length + fuel := by
  intro fuel
  induction fuel with
  | zero => intro year s _; rfl
  | succ n ih =>
    intro year s hy
    simp only [accumYearsGo]
    rw [ih _ _ (by omega), if_neg (by omega : ¬ year = 0)]
    simp
    omega

/-- The accumulation year loop only appends to the chart series, so a
non-empty incoming series keeps its first entry. -/
theorem accumYearsGo_chart_head (inp : CalculatorInputs) (g : ℕ → ℚ) :
    ∀ (fuel year : ℕ) (s : AccumState), s.chart ≠ [] →
      (accumYearsGo inp g fuel year s).chart.head? = s.chart.head? := by
  intro fuel
  induction fuel with
  | zero => intro year s _; rfl
  | succ n ih =>
    intro year s h
    simp only [accumYearsGo]
    rw [ih]
    · show ((s.chart ++ _) ++ _).head? = _
      rw [List.head?_append_of_ne_nil _ (by simp [h]),
        List.head?_append_of_ne_nil _ h]
    · show ¬ (s.chart ++ _) ++ _ = []
      simp

/-- C8 counterexample: on the stochastic headline path the RETURNED
year-by-year list has one row per simulated year, not `horizon + 1` rows. -/
theorem C8_counterexample :
    1 ≤ inpZeroH2.investmentHorizon ∧ ¬ predictableGuard inpZeroH2 ∧
    ¬ ((calculateMonthlyCompoundInterest inpZeroH2 gZero 0).yearByYearDetails.length
        = inpZeroH2.investmentHorizon + 1) := by
  refine ⟨by decide, by decide, by decide⟩

/-- C8 (amended): the internally built chart series has `horizon + 1` entries
and starts with the year-0 seed row, while the returned year-by-year report
has exactly `horizon` rows. -/
theorem C8_snapshot_lengths (inp : CalculatorInputs) (g : ℕ → ℚ) (k : ℕ)
    (hh : 1 ≤ inp.investmentHorizon) (hng : ¬ predictableGuard inp) :
    (runAccumulation inp g k).chart.length = inp.investmentHorizon + 1 ∧
    (runAccumulation inp g k).chart.head? =
      some ⟨0, inp.initialInvestment, 0, 0, 0, inp.initialInvestment⟩ ∧
    (calculateMonthlyCompoundInterest inp g k).yearByYearDetails.length =
      inp.investmentHorizon := by
  obtain ⟨m, hm⟩ : ∃ m, inp.investmentHorizon = m + 1 :=
    ⟨inp.investmentHorizon - 1, by omega⟩
  refine ⟨?_, ?_, ?_⟩
  · rw [runAccumulation, hm]
    simp only [accumYearsGo]
    rw [accumYearsGo_chart_length_pos inp g m 1]
    · simp
      omega
    · omega
  · rw [runAccumulation, hm]
    simp only [accumYearsGo]
    rw [accumYearsGo_chart_head inp g m 1]
    · simp
    · simp
  · rw [calculateMonthlyCompoundInterest, if_neg hng]
    by_cases he : inp.retirementPhase.enabled
    · simp only [he, if_true]
      show (runAccumulation inp g k).details.length = inp.investmentHorizon
      rw [runAccumulation, accumYearsGo_details_length]
      simp
    · simp only [he, Bool.false_eq_true, if_false]
      show (runAccumulation inp g k).details.length = inp.investmentHorizon
      rw [runAccumulation, accumYearsGo_details_length]
      simp

/-- C8 witness (for the amended statement). -/
theorem C8_witness :
    1 ≤ inpZeroH2.investmentHorizon ∧ ¬ predictableGuard inpZeroH2 ∧
    ((runAccumulation inpZeroH2 gZero 0).chart.length =
        inpZeroH2.investmentHorizon + 1 ∧
     (runAccumulation inpZeroH2 gZero 0).chart.head? =
        some ⟨0, inpZeroH2.initialInvestment, 0, 0, 0, inpZeroH2.initialInvestment⟩ ∧
     (calculateMonthlyCompoundInterest inpZeroH2 gZero 0).yearByYearDetails.length =
        inpZeroH2.investmentHorizon) :=
  ⟨by decide, by decide, C8_snapshot_lengths inpZeroH2 gZero 0 (by decide) (by decide)⟩

/-! ### Percentile ordering -/

/-- The percentile reduction of any non-empty trial list is ordered:
p10 ≤ median ≤ p90, by sortedness of the underlying array. -/
theorem percentileSummary_ordered (bs : List ℚ) (sr : ℚ) (hbs : bs ≠ []) :
    (percentileSummary bs sr).worstCaseScenario ≤
      (percentileSummary bs sr).medianScenario ∧
    (percentileSummary bs sr).medianScenario ≤
      (percentileSummary bs sr).bestCaseScenario := by
  simp only [percentileSummary]
  set l := bs.mergeSort (fun a b => decide (a ≤ b)) with hl
  have hsorted : List.Sorted (· ≤ ·) l := List.sorted_mergeSort' bs
  have hlen : l.length = bs.length := List.length_mergeSort bs
  have hpos : 0 < l.length := by
    rw [hlen]
    exact List.length_pos.mpr hbs
  have hi1 : l.length / 10 < l.length := Nat.div_lt_self hpos (by norm_num)
  have hi2 : l.length / 2 < l.length := Nat.div_lt_self hpos (by norm_num)
  have hi3 : l.length * 9 / 10 < l.length := by
    rw [Nat.div_lt_iff_lt_mul (by norm_num)]
    omega
  have hle12 : l.length / 10 ≤ l.length / 2 :=
    Nat.div_le_div_left (by norm_num) (by norm_num)
  have hle23 : l.length / 2 ≤ l.length * 9 / 10 := by
    rw [Nat.le_div_iff_mul_le (by norm_num)]
    have h2 : l.length / 2 * 2 ≤ l.length := Nat.div_mul_le_self _ _
    omega
  rw [List.getD_eq_getElem l 0 hi1, List.getD_eq_getElem l 0 hi2,
    List.getD_eq_getElem l 0 hi3]
  constructor
  · have := hsorted.rel_get_of_le
      (a := ⟨l.length / 10, hi1⟩) (b := ⟨l.length / 2, hi2⟩) hle12
    simpa using this
  · have := hsorted.rel_get_of_le
      (a := ⟨l.length / 2, hi2⟩) (b := ⟨l.length * 9 / 10, hi3⟩) hle23
    simpa using this

/-- The retirement Monte-Carlo loop produces one trial balance per trial. -/
theorem retTrialsGo_length (inp : CalculatorInputs) (effRet : ℚ) (retYears : ℕ)
    (b0 : ℚ) (g : ℕ → ℚ) : ∀ (n k : ℕ),
      (retTrialsGo inp effRet retYears b0 g n k).1.length = n := by
  intro n
  induction n with
  | zero => intro k; rfl
  | succ n ih =>
    intro k
    simp only [retTrialsGo]
    simp [ih]

/-- The zero-volatility single path of the sequence-risk analyzer keeps a
non-negative balance under the documented input domain. -/
theorem szMonths_nonneg (inp : CalculatorInputs)
    (hmc : 0 ≤ inp.monthlyContribution)
    (hr : -1200 ≤ inp.expectedAnnualReturn)
    (he : 0 ≤ inp.fees.expenseRatio) (ha : 0 ≤ inp.fees.advisoryFee)
    (hea : inp.fees.expenseRatio + inp.fees.advisoryFee ≤ 1200) :
    ∀ (n : ℕ) (b : ℚ), 0 ≤ b → 0 ≤ szMonths inp n b := by
  intro n
  induction n with
  | zero => intro b hb; simpa [szMonths] using hb
  | succ n ih =>
    intro b hb
    rw [szMonths]
    apply ih
    have hb1 : 0 ≤ b + inp.monthlyContribution := by linarith
    have hrate : 0 ≤ 1 + inp.expectedAnnualReturn / 100 / 12 := by linarith
    have hb2 : 0 ≤ (b + inp.monthlyContribution) *
        (1 + inp.expectedAnnualReturn / 100 / 12) := mul_nonneg hb1 hrate
    have hfr : (inp.fees.expenseRatio + inp.fees.advisoryFee) / 12 / 100 ≤ 1 := by
      linarith
    have hfr0 : 0 ≤ (inp.fees.expenseRatio + inp.fees.advisoryFee) / 12 / 100 := by
      linarith
    nlinarith [mul_le_mul_of_nonneg_left hfr hb2]

/-- The zero-volatility retirement longevity simulation keeps a non-negative
balance under the documented input domain. -/
theorem srLoop_nonneg (inp : CalculatorInputs) (effRet : ℚ)
    (hr : -100 ≤ effRet)
    (he : 0 ≤ inp.fees.expenseRatio) (ha : 0 ≤ inp.fees.advisoryFee)
    (hea : inp.fees.expenseRatio + inp.fees.advisoryFee ≤ 100) :
    ∀ (fuel year : ℕ) (b : ℚ) (yl : ℤ), 0 ≤ b →
      0 ≤ (srLoop inp effRet fuel year b yl).1 := by
  intro fuel
  induction fuel with
  | zero => intro year b yl hb; simpa [srLoop] using hb
  | succ n ih =>
    intro year b yl hb
    simp only [srLoop]
    set wa := (if inp.retirementPhase.withdrawalAdjustForInflation then
        inp.retirementPhase.annualWithdrawal * (1 + inp.inflationRate / 100) ^ year
      else inp.retirementPhase.annualWithdrawal) with hwa
    split_ifs with h
    · exact le_refl 0
    · apply ih
      push_neg at h
      have hb1 : 0 ≤ 1 + effRet / 100 := by linarith
      have hb2 : 0 ≤ (b - wa) * (1 + effRet / 100) := mul_nonneg h.le hb1
      have hfr : (inp.fees.expenseRatio + inp.fees.advisoryFee) / 100 ≤ 1 := by linarith
      have hfr0 : 0 ≤ (inp.fees.expenseRatio + inp.fees.advisoryFee) / 100 := by linarith
      nlinarith [mul_le_mul_of_nonneg_left hfr hb2]

/-- C6: every completed risk analysis reports ordered percentiles
`p10 ≤ median ≤ p90`: the Monte-Carlo branches by sortedness of the 1000-trial
array, the zero-volatility branches because the synthetic ±5% band is applied
to a non-negative deterministic balance (inputs from the documented domain). -/
theorem C6_percentiles_ordered (inp : CalculatorInputs) (g : ℕ → ℚ) (k : ℕ)
    (wp : Bool) (b0 : ℚ) (retYears : ℕ) :
    (inp.returnVolatility ≠ 0 →
      ((calculateSequenceRisk inp wp g k).1.worstCaseScenario ≤
         (calculateSequenceRisk inp wp g k).1.medianScenario ∧
       (calculateSequenceRisk inp wp g k).1.medianScenario ≤
         (calculateSequenceRisk inp wp g k).1.bestCaseScenario)) ∧
    (inp.returnVolatility ≠ 0 →
      ((calculateRetirementSuccessRate inp b0 retYears g k).1.worstCaseScenario ≤
         (calculateRetirementSuccessRate inp b0 retYears g k).1.medianScenario ∧
       (calculateRetirementSuccessRate inp b0 retYears g k).1.medianScenario ≤
         (calculateRetirementSuccessRate inp b0 retYears g k).1.bestCaseScenario)) ∧
    (inp.returnVolatility = 0 → 0 ≤ inp.monthlyContribution →
      -1200 ≤ inp.expectedAnnualReturn → 0 ≤ inp.fees.expenseRatio →
      0 ≤ inp.fees.advisoryFee →
      inp.fees.expenseRatio + inp.fees.advisoryFee ≤ 1200 →
      0 ≤ inp.initialInvestment →
      ((calculateSequenceRisk inp wp g k).1.worstCaseScenario ≤
         (calculateSequenceRisk inp wp g k).1.medianScenario ∧
       (calculateSequenceRisk inp wp g k).1.medianScenario ≤
         (calculateSequenceRisk inp wp g k).1.bestCaseScenario)) ∧
    (inp.returnVolatility = 0 → -100 ≤ inp.retirementPhase.retirementReturn →
      0 ≤ inp.fees.expenseRatio → 0 ≤ inp.fees.advisoryFee →
      inp.fees.expenseRatio + inp.fees.advisoryFee ≤ 100 → 0 ≤ b0 →
      ((calculateRetirementSuccessRate inp b0 retYears g k).1.worstCaseScenario ≤
         (calculateRetirementSuccessRate inp b0 retYears g k).1.medianScenario ∧
       (calculateRetirementSuccessRate inp b0 retYears g k).1.medianScenario ≤
         (calculateRetirementSuccessRate inp b0 retYears g k).1.bestCaseScenario)) := by
  refine ⟨?_, ?_, ?_, ?_⟩
  · intro hv
    rw [calculateSequenceRisk, if_neg hv]
    have hne : (seqTrialsGo inp wp g 1000 k).1 ≠ [] := by
      intro hnil
      have := (seqTrialsGo_all_success inp wp g 1000 k).2
      rw [hnil] at this
      simp at this
    exact percentileSummary_ordered _ _ hne
  · intro hv
    rw [calculateRetirementSuccessRate, if_neg hv]
    have hne : (retTrialsGo inp inp.retirementPhase.retirementReturn retYears b0 g 1000 k).1
        ≠ [] := by
      intro hnil
      have := retTrialsGo_length inp inp.retirementPhase.retirementReturn retYears b0 g 1000 k
      rw [hnil] at this
      simp at this
    exact percentileSummary_ordered _ _ hne
  · intro hv hmc hr he ha hea hinit
    rw [calculateSequenceRisk, if_pos hv]
    have hF : 0 ≤ szMonths inp (inp.investmentHorizon * 12) inp.initialInvestment :=
      szMonths_nonneg inp hmc hr he ha hea _ _ hinit
    constructor <;> dsimp only <;> nlinarith [hF]
  · intro hv hr he ha hea hb0
    rw [calculateRetirementSuccessRate, if_pos hv]
    by_cases hc : inp.retirementPhase.retirementReturn = 0 ∧
        0 < inp.retirementPhase.annualWithdrawal ∧
        inp.retirementPhase.withdrawalAdjustForInflation = false
    · rw [if_pos hc]
      constructor <;> dsimp only <;> nlinarith [hb0]
    · rw [if_neg hc]
      have hF : 0 ≤ (srLoop inp inp.retirementPhase.retirementReturn 100 0 b0 0).1 :=
        srLoop_nonneg inp inp.retirementPhase.retirementReturn hr he ha hea 100 0 b0 0 hb0
      constructor <;> dsimp only <;> nlinarith [hF]

/-- C6 witness. -/
theorem C6_witness :
    inpStoch.returnVolatility ≠ 0 ∧ inpZeroH2.returnVolatility = 0 ∧
    (0 ≤ inpZeroH2.monthlyContribution ∧ -1200 ≤ inpZeroH2.expectedAnnualReturn ∧
     0 ≤ inpZeroH2.fees.expenseRatio ∧ 0 ≤ inpZeroH2.fees.advisoryFee ∧
     inpZeroH2.fees.expenseRatio + inpZeroH2.fees.advisoryFee ≤ 1200 ∧
     0 ≤ inpZeroH2.initialInvestment ∧
     -100 ≤ inpZeroH2.retirementPhase.retirementReturn ∧
     inpZeroH2.fees.expenseRatio + inpZeroH2.fees.advisoryFee ≤ 100 ∧ (0:ℚ) ≤ 250) ∧
    ((calculateSequenceRisk inpStoch true gZero 0).1.worstCaseScenario ≤
       (calculateSequenceRisk inpStoch true gZero 0).1.medianScenario ∧
     (calculateSequenceRisk inpStoch true gZero 0).1.medianScenario ≤
       (calculateSequenceRisk inpStoch true gZero 0).1.bestCaseScenario) ∧
    ((calculateRetirementSuccessRate inpStoch 250 5 gZero 0).1.worstCaseScenario ≤
       (calculateRetirementSuccessRate inpStoch 250 5 gZero 0).1.medianScenario ∧
     (calculateRetirementSuccessRate inpStoch 250 5 gZero 0).1.medianScenario ≤
       (calculateRetirementSuccessRate inpStoch 250 5 gZero 0).1.bestCaseScenario) ∧
    ((calculateSequenceRisk inpZeroH2 true gZero 0).1.worstCaseScenario ≤
       (calculateSequenceRisk inpZeroH2 true gZero 0).1.medianScenario ∧
     (calculateSequenceRisk inpZeroH2 true gZero 0).1.medianScenario ≤
       (calculateSequenceRisk inpZeroH2 true gZero 0).1.bestCaseScenario) ∧
    ((calculateRetirementSuccessRate inpZeroH2 250 5 gZero 0).1.worstCaseScenario ≤
       (calculateRetirementSuccessRate inpZeroH2 250 5 gZero 0).1.medianScenario ∧
     (calculateRetirementSuccessRate inpZeroH2 250 5 gZero 0).1.medianScenario ≤
       (calculateRetirementSuccessRate inpZeroH2 250 5 gZero 0).1.bestCaseScenario) :=
  ⟨by decide, rfl,
   ⟨by decide, by decide, by decide, by decide,
    by norm_num [inpZeroH2, inpSimple], by decide, by decide,
    by norm_num [inpZeroH2, inpSimple], by decide⟩,
   (C6_percentiles_ordered inpStoch gZero 0 true 250 5).1 (by decide),
   (C6_percentiles_ordered inpStoch gZero 0 true 250 5).2.1 (by decide),
   (C6_percentiles_ordered inpZeroH2 gZero 0 true 250 5).2.2.1 rfl (by decide)
     (by decide) (by decide) (by decide) (by norm_num [inpZeroH2, inpSimple]) (by decide),
   (C6_percentiles_ordered inpZeroH2 gZero 0 true 250 5).2.2.2 rfl (by decide)
     (by decide) (by decide) (by norm_num [inpZeroH2, inpSimple]) (by decide)⟩

/-! ### Year-0 depletion of the retirement phase -/

/-- Shape of a retirement month in year 0 with a positive withdrawal need:
the withdrawal pass runs, growth is skipped, and each balance then only loses
its fee drag. -/
theorem retMonth0_eq (inp : CalculatorInputs) (effRet mw u : ℚ) (b : Balances)
    (hmw : 0 < mw) :
    (retMonth inp effRet 0 mw u b).w = withdrawalStep inp.taxRate mw b ∧
    (retMonth inp effRet 0 mw u b).bal.taxDeferred =
      (withdrawalStep inp.taxRate mw b).bal.taxDeferred -
        (withdrawalStep inp.taxRate mw b).bal.taxDeferred *
          (inp.fees.expenseRatio / 12 / 100 + inp.fees.advisoryFee / 12 / 100) ∧
    (retMonth inp effRet 0 mw u b).bal.taxFree =
      (withdrawalStep inp.taxRate mw b).bal.taxFree -
        (withdrawalStep inp.taxRate mw b).bal.taxFree *
          (inp.fees.expenseRatio / 12 / 100 + inp.fees.advisoryFee / 12 / 100) ∧
    (retMonth inp effRet 0 mw u b).bal.taxable =
      (withdrawalStep inp.taxRate mw b).bal.taxable -
        (withdrawalStep inp.taxRate mw b).bal.taxable *
          (inp.fees.expenseRatio / 12 / 100 + inp.fees.advisoryFee / 12 / 100) := by
  simp [retMonth, hmw]

/-- Invariant of the twelve months of retirement year 0: balances stay
component-wise non-negative, and unless the money-ran-out flag was raised the
total has decreased by at least `n` full monthly withdrawals. -/
theorem retMonths0_invariant (inp : CalculatorInputs) (effRet mw : ℚ)
    (g : ℕ → ℚ) (hmw : 0 < mw)
    (he : 0 ≤ inp.fees.expenseRatio) (ha : 0 ≤ inp.fees.advisoryFee)
    (hea : inp.fees.expenseRatio + inp.fees.advisoryFee ≤ 1200) :
    ∀ (n : ℕ) (s : RetYearState),
      0 ≤ s.bal.taxDeferred → 0 ≤ s.bal.taxFree → 0 ≤ s.bal.taxable →
      ((0 ≤ (retMonthsGo inp effRet 0 mw g n s).bal.taxDeferred ∧
        0 ≤ (retMonthsGo inp effRet 0 mw g n s).bal.taxFree ∧
        0 ≤ (retMonthsGo inp effRet 0 mw g n s).bal.taxable) ∧
       ((retMonthsGo inp effRet 0 mw g n s).runOut = true ∨
        ((retMonthsGo inp effRet 0 mw g n s).runOut = s.runOut ∧
         (retMonthsGo inp effRet 0 mw g n s).bal.total ≤ s.bal.total - n * mw))) := by
  have hfr0 : 0 ≤ inp.fees.expenseRatio / 12 / 100 + inp.fees.advisoryFee / 12 / 100 := by
    linarith
  have hfr1 : inp.fees.expenseRatio / 12 / 100 + inp.fees.advisoryFee / 12 / 100 ≤ 1 := by
    linarith
  intro n
  induction n with
  | zero =>
    intro s h1 h2 h3
    refine ⟨⟨h1, h2, h3⟩, Or.inr ⟨rfl, ?_⟩⟩
    simp [retMonthsGo]
  | succ n ih =>
    intro s h1 h2 h3
    obtain ⟨w1, w2, w3, wsf, wacc, wtot, -⟩ :=
      withdrawalStep_nonneg inp.taxRate mw s.bal h1 h2 h3 hmw.le
    obtain ⟨m0, m1, m2, m3⟩ := retMonth0_eq inp effRet mw (g s.idx) s.bal hmw
    -- facts about the stepped state
    have hsbal : (retYearStep inp effRet 0 mw (g s.idx) s).bal =
        (retMonth inp effRet 0 mw (g s.idx) s.bal).bal := rfl
    have hsro : (retYearStep inp effRet 0 mw (g s.idx) s).runOut =
        (s.runOut || decide (0 < (withdrawalStep inp.taxRate mw s.bal).shortfall)) := by
      rw [retYearStep]
      simp [m0]
    -- the balances after the month
    have hb1 : 0 ≤ (retMonth inp effRet 0 mw (g s.idx) s.bal).bal.taxDeferred := by
      rw [m1]
      nlinarith [mul_le_mul_of_nonneg_left hfr1 w1]
    have hb2 : 0 ≤ (retMonth inp effRet 0 mw (g s.idx) s.bal).bal.taxFree := by
      rw [m2]
      nlinarith [mul_le_mul_of_nonneg_left hfr1 w2]
    have hb3 : 0 ≤ (retMonth inp effRet 0 mw (g s.idx) s.bal).bal.taxable := by
      rw [m3]
      nlinarith [mul_le_mul_of_nonneg_left hfr1 w3]
    have hb1' := hb1
    have hb2' := hb2
    have hb3' := hb3
    rw [← hsbal] at hb1' hb2' hb3'
    obtain ⟨hcomp, hrest⟩ := ih (retYearStep inp effRet 0 mw (g s.idx) s) hb1' hb2' hb3'
    simp only [retMonthsGo]
    rcases lt_or_eq_of_le wsf with hsf | hsf
    · -- a shortfall this month: the flag is raised and persists
      refine ⟨hcomp, Or.inl ?_⟩
      apply retMonthsGo_runOut_mono
      rw [hsro]
      simp [hsf]
    · -- the full withdrawal was met: the total drops by a full `mw`
      have hdrawn : (withdrawalStep inp.taxRate mw s.bal).drawnTotal = mw := by
        rw [← hsf] at wacc
        linarith
      have htotm : (retYearStep inp effRet 0 mw (g s.idx) s).bal.total
          ≤ s.bal.total - mw := by
        have hwt : (withdrawalStep inp.taxRate mw s.bal).bal.total = s.bal.total - mw := by
          rw [wtot, hdrawn]
        have hwtn : 0 ≤ (withdrawalStep inp.taxRate mw s.bal).bal.total := by
          rw [Balances.total]
          linarith
        rw [hsbal, Balances.total, m1, m2, m3]
        rw [Balances.total] at hwt hwtn
        nlinarith
      refine ⟨hcomp, ?_⟩
      rcases hrest with h | ⟨hro, htot⟩
      · exact Or.inl h
      · refine Or.inr ⟨?_, ?_⟩
        · rw [hro, hsro, ← hsf]
          simp
        · push_cast
          linarith

/-- If the requested monthly withdrawals of year 0 exceed the available
total, the money-ran-out flag is raised by the end of the year. -/
theorem retMonths0_depletes (inp : CalculatorInputs) (effRet mw : ℚ)
    (g : ℕ → ℚ) (hmw : 0 < mw)
    (he : 0 ≤ inp.fees.expenseRatio) (ha : 0 ≤ inp.fees.advisoryFee)
    (hea : inp.fees.expenseRatio + inp.fees.advisoryFee ≤ 1200)
    (s : RetYearState)
    (h1 : 0 ≤ s.bal.taxDeferred) (h2 : 0 ≤ s.bal.taxFree) (h3 : 0 ≤ s.bal.taxable)
    (hlt : s.bal.total < 12 * mw) :
    (retMonthsGo inp effRet 0 mw g 12 s).runOut = true := by
  obtain ⟨⟨c1, c2, c3⟩, h⟩ :=
    retMonths0_invariant inp effRet mw g hmw he ha hea 12 s h1 h2 h3
  rcases h with h | ⟨-, htot⟩
  · exact h
  · exfalso
    have : 0 ≤ (retMonthsGo inp effRet 0 mw g 12 s).bal.total := by
      rw [Balances.total]
      linarith
    push_cast at htot
    linarith

/-- Bounds on the initial three-way split of a starting balance: outside the
taxable account type (whose initialisation double-counts the amount), the
components are non-negative and sum to at most the amount. -/
theorem initBalances_bounds (t : AccountType) (alloc : AccountAllocation) (b0 : ℚ)
    (hb0 : 0 ≤ b0) (ht : t ≠ .taxable)
    (hmix : t = .mixed → 0 ≤ alloc.taxDeferred ∧ 0 ≤ alloc.taxFree ∧
        alloc.taxDeferred + alloc.taxFree ≤ 100) :
    0 ≤ (initBalances t alloc b0).taxDeferred ∧
    0 ≤ (initBalances t alloc b0).taxFree ∧
    0 ≤ (initBalances t alloc b0).taxable ∧
    (initBalances t alloc b0).total ≤ b0 := by
  cases t with
  | taxable => exact absurd rfl ht
  | taxDeferred =>
    refine ⟨?_, ?_, ?_, ?_⟩ <;> simp [initBalances, Balances.total, hb0]
  | taxFree =>
    refine ⟨?_, ?_, ?_, ?_⟩ <;> simp [initBalances, Balances.total, hb0]
  | mixed =>
    obtain ⟨ha1, ha2, ha3⟩ := hmix rfl
    refine ⟨?_, ?_, ?_, ?_⟩ <;> simp [initBalances, Balances.total]
    · positivity
    · positivity
    · nlinarith

/-- One step of the deterministic longevity loop when the withdrawal empties
the balance. -/
theorem srLoop_depleted_step (inp : CalculatorInputs) (effRet : ℚ)
    (fuel year : ℕ) (b : ℚ) (yl : ℤ)
    (h : b - (if inp.retirementPhase.withdrawalAdjustForInflation then
        inp.retirementPhase.annualWithdrawal * (1 + inp.inflationRate / 100) ^ year
      else inp.retirementPhase.annualWithdrawal) ≤ 0) :
    srLoop inp effRet (fuel + 1) year b yl = (0, (year : ℤ)) := by
  simp only [srLoop]
  rw [if_pos h]

/-- One step of the retirement year loop when the year starts with nothing
left: the loop stops and reports the current year as the longevity. -/
theorem retYearsGo_broke_step (inp : CalculatorInputs) (effRet : ℚ)
    (retYrs : ℕ) (b0 : ℚ) (g : ℕ → ℚ) (fuel year : ℕ) (s : RetPhaseState)
    (hS : s.bal.total ≤ 0) :
    (retYearsGo inp effRet retYrs b0 g (fuel + 1) year s).projectedLongevity
      = (year : ℤ) := by
  simp only [retYearsGo]
  rw [if_pos hS]

/-- One step of the retirement year loop when the money runs out during the
year's months: the loop stops after this year and reports `year + 1`. -/
theorem retYearsGo_runOut_step (inp : CalculatorInputs) (effRet : ℚ)
    (retYrs : ℕ) (b0 : ℚ) (g : ℕ → ℚ) (fuel year : ℕ) (s : RetPhaseState)
    (hS : ¬ s.bal.total ≤ 0)
    (hro : (retMonthsGo inp effRet year
        ((if inp.retirementPhase.withdrawalAdjustForInflation then
            inp.retirementPhase.annualWithdrawal * (1 + inp.inflationRate / 100) ^ year
          else inp.retirementPhase.annualWithdrawal) / 12) g 12
        ⟨s.bal, s.runOut, s.idx, 0, 0, 0, 0, 0, 0, 0⟩).runOut = true) :
    (retYearsGo inp effRet retYrs b0 g (fuel + 1) year s).projectedLongevity
      = (year : ℤ) + 1 := by
  simp only [retYearsGo]
  rw [if_neg hS, if_pos hro]

/-- With zero volatility, a non-negative retirement return and an annual
withdrawal exceeding the grown starting balance, the success-rate analyzer
reports exactly 0. -/
theorem successRate_zero_of_excess_withdrawal (inp : CalculatorInputs)
    (b0 : ℚ) (retYears : ℕ) (g : ℕ → ℚ) (k : ℕ)
    (hv : inp.returnVolatility = 0)
    (hr : 0 ≤ inp.retirementPhase.retirementReturn)
    (hb0 : 0 ≤ b0)
    (hW : b0 * (1 + inp.retirementPhase.retirementReturn / 100) <
          inp.retirementPhase.annualWithdrawal)
    (hry : 2 ≤ retYears) :
    (calculateRetirementSuccessRate inp b0 retYears g k).1.successRate = 0 := by
  have hb0r : 0 ≤ b0 * (1 + inp.retirementPhase.retirementReturn / 100) :=
    mul_nonneg hb0 (by linarith)
  have hWpos : 0 < inp.retirementPhase.annualWithdrawal := lt_of_le_of_lt hb0r hW
  have hb0W : b0 < inp.retirementPhase.annualWithdrawal := by nlinarith
  rw [calculateRetirementSuccessRate, if_pos hv]
  by_cases hc : inp.retirementPhase.retirementReturn = 0 ∧
      0 < inp.retirementPhase.annualWithdrawal ∧
      inp.retirementPhase.withdrawalAdjustForInflation = false
  · rw [if_pos hc]
    have hfloor : ⌊b0 / inp.retirementPhase.annualWithdrawal⌋ = 0 := by
      rw [Int.floor_eq_zero_iff]
      constructor
      · exact div_nonneg hb0 hWpos.le
      · exact (div_lt_one hWpos).mpr hb0W
    dsimp only
    rw [hfloor, if_neg (by omega)]
  · rw [if_neg hc]
    have hwa : (if inp.retirementPhase.withdrawalAdjustForInflation then
        inp.retirementPhase.annualWithdrawal * (1 + inp.inflationRate / 100) ^ (0:ℕ)
      else inp.retirementPhase.annualWithdrawal) = inp.retirementPhase.annualWithdrawal := by
      split_ifs <;> simp
    have hdep : b0 - (if inp.retirementPhase.withdrawalAdjustForInflation then
        inp.retirementPhase.annualWithdrawal * (1 + inp.inflationRate / 100) ^ (0:ℕ)
      else inp.retirementPhase.annualWithdrawal) ≤ 0 := by
      rw [hwa]
      linarith
    rw [show (100:ℕ) = 99 + 1 from rfl,
      srLoop_depleted_step inp inp.retirementPhase.retirementReturn 99 0 b0 0 hdep]
    dsimp only
    rw [if_neg (by omega)]

set_option maxRecDepth 100000 in
/-- C4 counterexample: with a negative retirement return the claim's
hypotheses hold (volatility 0, retirementYears = 2, withdrawal 60 >
100 × (1 - 50/100) = 50), yet the monthly simulation keeps the portfolio
alive through year 0 (100 - 60 = 40) and reports projectedLongevity = 2,
which is NOT `< retirementYears`. -/
theorem C4_counterexample :
    inpRetNeg.returnVolatility = 0 ∧
    2 ≤ inpRetNeg.retirementPhase.retirementYears ∧
    (100:ℚ) * (1 + inpRetNeg.retirementPhase.retirementReturn / 100) <
      inpRetNeg.retirementPhase.annualWithdrawal ∧
    ¬ ((calculateRetirementPhase inpRetNeg 100 gZero 0).1.summary.projectedLongevity <
        (inpRetNeg.retirementPhase.retirementYears : ℤ)) := by
  refine ⟨rfl, by decide, by with_unfolding_all decide, ?_⟩
  with_unfolding_all decide

/-- C4 (amended): for a NON-NEGATIVE retirement return (and standard domain
conditions: non-negative starting balance and fees, fee sum at most 1200%,
account type other than taxable — whose initialisation double-counts the
balance — and, in mixed mode, non-negative allocations summing to at most
100%), an annual withdrawal exceeding the grown starting balance depletes the
portfolio in year 0 or 1: the reported longevity is below the requested
retirement years and the retirement success rate is exactly 0, hence < 1. -/
theorem C4_depletion_amended (inp : CalculatorInputs) (b0 : ℚ) (g : ℕ → ℚ)
    (k : ℕ)
    (hv : inp.returnVolatility = 0)
    (hry : 2 ≤ inp.retirementPhase.retirementYears)
    (hr : 0 ≤ inp.retirementPhase.retirementReturn)
    (hb0 : 0 ≤ b0)
    (hW : b0 * (1 + inp.retirementPhase.retirementReturn / 100) <
          inp.retirementPhase.annualWithdrawal)
    (he : 0 ≤ inp.fees.expenseRatio) (ha : 0 ≤ inp.fees.advisoryFee)
    (hea : inp.fees.expenseRatio + inp.fees.advisoryFee ≤ 1200)
    (ht : inp.accountType ≠ .taxable)
    (hmix : inp.accountType = .mixed → 0 ≤ inp.accountAllocation.taxDeferred ∧
        0 ≤ inp.accountAllocation.taxFree ∧
        inp.accountAllocation.taxDeferred + inp.accountAllocation.taxFree ≤ 100) :
    (calculateRetirementPhase inp b0 g k).1.summary.projectedLongevity <
      (inp.retirementPhase.retirementYears : ℤ) ∧
    (calculateRetirementPhase inp b0 g k).1.probabilityMetrics.successRate = 0 ∧
    (calculateRetirementPhase inp b0 g k).1.probabilityMetrics.successRate < 1 := by
  have hb0r : 0 ≤ b0 * (1 + inp.retirementPhase.retirementReturn / 100) :=
    mul_nonneg hb0 (by linarith)
  have hWpos : 0 < inp.retirementPhase.annualWithdrawal := lt_of_le_of_lt hb0r hW
  have hb0W : b0 < inp.retirementPhase.annualWithdrawal := by nlinarith
  have hretEq : (if inp.retirementPhase.retirementYears = 0 then 30
      else inp.retirementPhase.retirementYears) = inp.retirementPhase.retirementYears := by
    rw [if_neg]
    omega
  have hsucc : (calculateRetirementPhase inp b0 g k).1.probabilityMetrics.successRate = 0 := by
    simp only [calculateRetirementPhase]
    rw [hretEq]
    exact successRate_zero_of_excess_withdrawal inp b0 _ g _ hv hr hb0 hW hry
  refine ⟨?_, hsucc, by rw [hsucc]; norm_num⟩
  obtain ⟨i1, i2, i3, i4⟩ :=
    initBalances_bounds inp.accountType inp.accountAllocation b0 hb0 ht hmix
  rcases eq_or_lt_of_le hr with hz | hpos
  · -- zero retirement return: the simple-division override applies
    have hzz : inp.retirementPhase.retirementReturn = 0 ∧ inp.returnVolatility = 0 :=
      ⟨hz.symm, hv⟩
    have hfloor : ⌊b0 / inp.retirementPhase.annualWithdrawal⌋ = 0 := by
      rw [Int.floor_eq_zero_iff]
      exact ⟨div_nonneg hb0 hWpos.le, (div_lt_one hWpos).mpr hb0W⟩
    simp only [calculateRetirementPhase]
    rw [if_pos hzz, if_pos hzz, if_pos hWpos, hfloor]
    omega
  · -- positive retirement return: the monthly loop runs dry during year 0
    have hnz : ¬ (inp.retirementPhase.retirementReturn = 0 ∧ inp.returnVolatility = 0) := by
      intro h
      exact absurd h.1 (ne_of_gt hpos)
    simp only [calculateRetirementPhase]
    rw [if_neg hnz, show (100:ℕ) = 99 + 1 from rfl]
    by_cases hS : (initBalances inp.accountType inp.accountAllocation b0).total ≤ 0
    · rw [retYearsGo_broke_step]
      · omega
      · exact hS
    · rw [retYearsGo_runOut_step]
      · omega
      · exact hS
      · have hwa0 : (if inp.retirementPhase.withdrawalAdjustForInflation then
            inp.retirementPhase.annualWithdrawal * (1 + inp.inflationRate / 100) ^ (0:ℕ)
          else inp.retirementPhase.annualWithdrawal) = inp.retirementPhase.annualWithdrawal := by
          split_ifs <;> simp
        rw [hwa0]
        apply retMonths0_depletes inp inp.retirementPhase.retirementReturn
          (inp.retirementPhase.annualWithdrawal / 12) g (by positivity) he ha hea
        · exact i1
        · exact i2
        · exact i3
        · have h12 : (12:ℚ) * (inp.retirementPhase.annualWithdrawal / 12) =
              inp.retirementPhase.annualWithdrawal := by ring
          show (initBalances inp.accountType inp.accountAllocation b0).total < _
          rw [h12]
          linarith

/-- C4 witness (for the amended statement). -/
theorem C4_witness :
    inpRetPos.returnVolatility = 0 ∧
    2 ≤ inpRetPos.retirementPhase.retirementYears ∧
    0 ≤ inpRetPos.retirementPhase.retirementReturn ∧
    (0:ℚ) ≤ 100 ∧
    (100:ℚ) * (1 + inpRetPos.retirementPhase.retirementReturn / 100) <
      inpRetPos.retirementPhase.annualWithdrawal ∧
    0 ≤ inpRetPos.fees.expenseRatio ∧ 0 ≤ inpRetPos.fees.advisoryFee ∧
    inpRetPos.fees.expenseRatio + inpRetPos.fees.advisoryFee ≤ 1200 ∧
    inpRetPos.accountType ≠ AccountType.taxable ∧
    ((calculateRetirementPhase inpRetPos 100 gZero 0).1.summary.projectedLongevity <
       (inpRetPos.retirementPhase.retirementYears : ℤ) ∧
     (calculateRetirementPhase inpRetPos 100 gZero 0).1.probabilityMetrics.successRate = 0 ∧
     (calculateRetirementPhase inpRetPos 100 gZero 0).1.probabilityMetrics.successRate < 1) :=
  ⟨rfl, by decide, by decide, by norm_num,
   by with_unfolding_all decide, by decide, by decide,
   by with_unfolding_all decide, by decide,
   C4_depletion_amended inpRetPos 100 gZero 0 rfl (by decide) (by decide) (by norm_num)
     (by with_unfolding_all decide) (by decide) (by decide)
     (by with_unfolding_all decide) (by decide) (by intro h; cases h)⟩

end CompoundCalc
